import Mathlib

/-!
Shallow embedding of the asset codec of this repository: the LevelSetup
binary decoder, the Sprite decoder and the pixel-format converters, with
theorems checking the specification claims against them.

Conventions of the embedding:
- a byte is a Nat below 256; byte strings are List Nat;
- machine integers are Nat or Int with explicit masking and two-complement
  conversion where the Rust code converts;
- 32-bit floats are kept as their four raw big-endian bytes (structure F32),
  since the codec never computes with float values, only moves them;
- Rust panics (out-of-bounds indexing, todo, explicit panic, failed unwrap)
  and every other failure are modelled as none;
- the sequential byte reader of level_setup.rs is modelled by the list of
  bytes not yet consumed, since that reader never moves backwards; the
  sprite decoder of asset.rs indexes its buffer by absolute offsets and is
  modelled with absolute offsets.
-/

set_option maxRecDepth 100000

/-- Big-endian unsigned 16-bit value from two bytes. -/
def toU16 (b0 b1 : Nat) : Nat := (b0 % 256) * 256 + b1 % 256

/-- Big-endian unsigned 32-bit value from four bytes. -/
def toU32 (b0 b1 b2 b3 : Nat) : Nat :=
  ((b0 % 256) * 16777216) + ((b1 % 256) * 65536) + ((b2 % 256) * 256) + b3 % 256

/-- Big-endian signed 16-bit value from two bytes (two-complement). -/
def toI16 (b0 b1 : Nat) : Int :=
  let u := toU16 b0 b1
  if u < 32768 then (u : Int) else (u : Int) - 65536

/-- Big-endian signed 32-bit value from four bytes (two-complement). -/
def toI32 (b0 b1 b2 b3 : Nat) : Int :=
  let u := toU32 b0 b1 b2 b3
  if u < 2147483648 then (u : Int) else (u : Int) - 4294967296

/-- The Rust idiom ((x as i8) >> 7) as u8: arithmetic shift of a byte by 7,
sign-extending bit 7 to the whole byte. -/
def sar7 (x : Nat) : Nat := if 128 ≤ x % 256 then 255 else 0

/-- A 32-bit float, kept as its four raw big-endian bytes. -/
structure F32 where
  b0 : Nat
  b1 : Nat
  b2 : Nat
  b3 : Nat
deriving DecidableEq

/-- The bytes of 0.0f32, the default the lighting parser substitutes. -/
def zeroF32 : F32 := ⟨0, 0, 0, 0⟩

/-- Rust slice chunks iterator (full chunks, then one shorter trailing
chunk), driven by fuel; the fuel is adequate as soon as it reaches the
list length. -/
def chunksRGo {α : Type} (n : Nat) : Nat → List α → List (List α)
  | _, [] => []
  | 0, _ :: _ => []
  | fuel + 1, x :: xs => ((x :: xs).take n) :: chunksRGo n fuel ((x :: xs).drop n)

/-- Rust slice chunks; chunks of size 0 panic in Rust and the call sites
below only use nonzero sizes. -/
def chunksR {α : Type} (n : Nat) (l : List α) : List (List α) :=
  if n = 0 then [] else chunksRGo n l.length l

/-- Rust slice chunks_exact iterator (only full chunks), driven by fuel. -/
def chunksExactGo {α : Type} (n : Nat) : Nat → List α → List (List α)
  | 0, _ => []
  | fuel + 1, l =>
    if 0 < n ∧ n ≤ l.length then (l.take n) :: chunksExactGo n fuel (l.drop n) else []

/-- Rust slice chunks_exact. -/
def chunksExact {α : Type} (n : Nat) (l : List α) : List (List α) :=
  chunksExactGo n l.length l

/-! ## The sequential byte reader of level_setup.rs

Each read_x function consumes from the front of the remaining byte list and
returns none where the Rust reader would panic (read past the end). -/

def read_u8 : List Nat → Option (Nat × List Nat)
  | [] => none
  | b :: r => some (b, r)

def read_i16 : List Nat → Option (Int × List Nat)
  | b0 :: b1 :: r => some (toI16 b0 b1, r)
  | _ => none

def read_i32 : List Nat → Option (Int × List Nat)
  | b0 :: b1 :: b2 :: b3 :: r => some (toI32 b0 b1 b2 b3, r)
  | _ => none

def read_f32 : List Nat → Option (F32 × List Nat)
  | b0 :: b1 :: b2 :: b3 :: r => some (⟨b0, b1, b2, b3⟩, r)
  | _ => none

/-- read_n(n, read_u8), the only live path of read_u8_n in the source. -/
def read_u8_n (n : Nat) (l : List Nat) : Option (List Nat × List Nat) :=
  if n ≤ l.length then some (l.take n, l.drop n) else none

/-- The pivotal combinator read_if_expected: peek one byte (panicking when
none is left, as the Rust indexing does); when it equals the expected value,
consume it and run the sub-parser, otherwise leave the input untouched. -/
def read_if_expected {α : Type} (expected_value : Nat)
    (reader_fn : List Nat → Option (α × List Nat)) :
    List Nat → Option (Option α × List Nat)
  | [] => none
  | b :: r =>
    if b = expected_value then
      match reader_fn r with
      | none => none
      | some (a, r2) => some (some a, r2)
    else some (none, b :: r)

def read_3i32 (l : List Nat) : Option ((Int × Int × Int) × List Nat) :=
  match read_i32 l with
  | none => none
  | some (a, r1) =>
    match read_i32 r1 with
    | none => none
    | some (b, r2) =>
      match read_i32 r2 with
      | none => none
      | some (c, r3) => some ((a, b, c), r3)

def read_3f32 (l : List Nat) : Option ((F32 × F32 × F32) × List Nat) :=
  match read_f32 l with
  | none => none
  | some (a, r1) =>
    match read_f32 r1 with
    | none => none
    | some (b, r2) =>
      match read_f32 r2 with
      | none => none
      | some (c, r3) => some ((a, b, c), r3)

/-- read_n(n, read_word). -/
def read_words : Nat → List Nat → Option (List Int × List Nat)
  | 0, l => some ([], l)
  | n + 1, l =>
    match read_i32 l with
    | none => none
    | some (w, r1) =>
      match read_words n r1 with
      | none => none
      | some (ws, r2) => some (w :: ws, r2)

/-! ## LevelSetup data model (level_setup.rs) -/

structure ActorNode where
  x : Int
  y : Int
  z : Int
  script_id : Nat
  object_id : Nat
  unknown_1 : Nat
  unknown_2 : Nat
  rotation : Nat
  unknown_3 : Nat
  size : Nat
  current_nodes : Nat
  next_nodes : Nat
deriving DecidableEq

structure TimedNode where
  x : Int
  y : Int
  z : Int
  script_id : Nat
  object_id : Nat
  unknown_1 : Nat
  unknown_2 : Nat
  timer : Nat
  unknown_3 : Nat
  size : Nat
  current_nodes : Nat
  next_nodes : Nat
deriving DecidableEq

structure ScriptNode where
  x : Int
  y : Int
  z : Int
  script_id : Nat
  object_id : Nat
  unknown_1 : Nat
  unknown_2 : Nat
  unknown_3 : Nat
  unknown_4 : Nat
  unknown_5 : Nat
  unknown_6 : Nat
  current_nodes : Nat
  next_nodes : Nat
deriving DecidableEq

structure RadiusNode where
  x : Int
  y : Int
  z : Int
  radius : Nat
  bit6 : Nat
  bit0 : Bool
  associated_id : Nat
  unknown_1 : Nat
  unknown_2 : Nat
  unknown_3 : Nat
  unknown_4 : Nat
  unknown_5 : Nat
  unknown_6 : Nat
  current_nodes : Nat
  next_nodes : Nat
deriving DecidableEq

structure SpriteNode where
  object_id : Nat
  size : Nat
  x : Int
  y : Int
  z : Int
  unknown_1 : Nat
  unknown_2 : Nat
deriving DecidableEq

structure StructureNode where
  object_id : Nat
  rotatation_y : Nat
  rotation_xz : Nat
  x : Int
  y : Int
  z : Int
  size : Nat
  unknown_1 : Nat
deriving DecidableEq

inductive LevelVoxelType where
  | Actor (node : ActorNode)
  | Timed (node : TimedNode)
  | Script (node : ScriptNode)
  | Radius (node : RadiusNode)
  | Sprite (node : SpriteNode)
  | Structure (node : StructureNode)
deriving DecidableEq

def RadiusNode.from_bytes (bytes : List Nat) : RadiusNode :=
  let b := fun (i : Nat) => bytes.getD i 0
  { x := toI16 (b 0) (b 1)
    y := toI16 (b 2) (b 3)
    z := toI16 (b 4) (b 5)
    radius := (toU16 (b 6) (b 7) &&& 0xFF80) >>> 7
    bit6 := (b 7 &&& 0x7F) >>> 1
    bit0 := b 7 &&& 0x1 = 1
    associated_id := toU16 (b 8) (b 9)
    unknown_1 := b 10
    unknown_2 := b 11
    unknown_3 := b 12
    unknown_4 := b 13
    unknown_5 := b 14
    unknown_6 := b 15
    current_nodes := toU16 (b 16) (b 17)
    next_nodes := toU16 (b 17) (b 18) }

/-- LevelVoxelType::get_known_script_objects. -/
def get_known_script_objects : List (Nat × Nat) := [
(0x0000, 0x1910),(0x0001, 0x190C),(0x0002, 0x190C),(0x0002, 0x1910),(0x0012, 0x1910),(0x0015, 
0x190C),(0x0016, 0x190C),(0x0017, 0x1910),(0x0013, 0x190C),(0x0037, 0x190C),(0x0071, 
0x190C),(0x0072, 0x190C),(0x0075, 0x190C),(0x0076, 0x190C),(0x0076, 0x0F0C),(0x0077, 
0x190C),(0x0078, 0x190C),(0x0079, 0x190C),(0x007A, 0x190C),(0x007B, 0x190C),(0x007C, 
0x190C),(0x007D, 0x190C),(0x007E, 0x190C),(0x007F, 0x190C),(0x0103, 0x190C),(0x0104, 
0x190C),(0x0105, 0x190C),(0x0106, 0x190C),(0x0149, 0x190C),(0x014A, 0x190C),(0x016E, 
0x190C),(0x01B0, 0x190C),(0x01CF, 0x190C),(0x0349, 0xC30C),(0x0373, 0x008C),(0x0373, 
0x010C),(0x0373, 0x018C),(0x0373, 0x020C),(0x0373, 0x028C),(0x0373, 0x030C),(0x0376, 
0x190C),(0x0379, 0x030C),(0x0379, 0x040C),(0x0379, 0x070C),(0x0379, 0x190C),(0x03B9, 
0x190C),(0x03BA, 0x190C),(0x03BD, 0x820C),(0x03BE, 0x190C),(0x03C3, 0x190C)]

/-- LevelVoxelType::get_known_timed_objects. -/
def get_known_timed_objects : List (Nat × Nat) := [
(0x002C, 0x008C),(0x002C, 0x190C),(0x0065, 0x008C),(0x0065, 0x190C)]

/-- LevelVoxelType::get_known_actor_objects. -/
def get_known_actor_objects : List (Nat × Nat) := [
(0x0004, 0x190C),(0x0005, 0x190C),(0x0006, 0x190C),(0x0007, 0x190C),(0x0008, 0x190C),(0x0009, 
0x190C),(0x000A, 0x190C),(0x000B, 0x190C),(0x000C, 0x190C),(0x000F, 0x190C),(0x0011, 
0x190C),(0x0012, 0x190C),(0x001E, 0x190C),(0x0020, 0x190C),(0x0021, 0x190C),(0x0022, 
0x190C),(0x0023, 0x190C),(0x0025, 0x190C),(0x0026, 0x168C),(0x0026, 0x190C),(0x0026, 
0x1E0C),(0x0026, 0x280C),(0x0027, 0x190C),(0x0027, 0x1E0C),(0x0027, 0x280C),(0x0028, 
0x168C),(0x0028, 0x190C),(0x0028, 0x1E0C),(0x0029, 0x190C),(0x002A, 0x190C),(0x002D, 
0x0C8C),(0x002D, 0x190C),(0x002F, 0x190C),(0x0030, 0x190C),(0x0031, 0x190C),(0x003A, 
0x190C),(0x003C, 0x190C),(0x003D, 0x190C),(0x003E, 0x190C),(0x0041, 0x190C),(0x0043, 
0x190C),(0x0046, 0x190C),(0x0047, 0x140C),(0x0047, 0x190C),(0x0049, 0x190C),(0x0050, 
0x190C),(0x0052, 0x190C),(0x0055, 0x190C),(0x0056, 0x190C),(0x0057, 0x190C),(0x005B, 
0x190C),(0x005E, 0x190C),(0x005F, 0x190C),(0x0060, 0x190C),(0x0061, 0x190C),(0x0062, 
0x190C),(0x0067, 0x008C),(0x0067, 0x190C),(0x0069, 0x190C),(0x0070, 0x190C),(0x0081, 
0x190C),(0x0082, 0x190C),(0x0083, 0x190C),(0x0084, 0x190C),(0x0085, 0x190C),(0x0088, 
0x190C),(0x008C, 0x190C),(0x00BC, 0x170C),(0x00BC, 0x190C),(0x00C5, 0x170C),(0x00C6, 
0x190C),(0x00C7, 0x008C),(0x00C7, 0x190C),(0x00CA, 0x190C),(0x00CB, 0x190C),(0x00CC, 
0x190C),(0x00CD, 0x190C),(0x00CE, 0x190C),(0x00D0, 0x190C),(0x00D1, 0x190C),(0x00D5, 
0x190C),(0x00D7, 0x190C),(0x00E4, 0x190C),(0x00E6, 0x190C),(0x00E8, 0x190C),(0x00EE, 
0x190C),(0x00EF, 0x190C),(0x00F0, 0x190C),(0x00F1, 0x190C),(0x00F2, 0x190C),(0x00F5, 
0x008C),(0x00F5, 0x190C),(0x00F6, 0x190C),(0x00F7, 0x190C),(0x00F9, 0x190C),(0x00FA, 
0x190C),(0x00FB, 0x190C),(0x00FC, 0x190C),(0x00FD, 0x190C),(0x00FE, 0x190C),(0x00FF, 
0x190C),(0x0100, 0x190C),(0x0101, 0x190C),(0x0102, 0x190C),(0x0109, 0x190C),(0x010A, 
0x190C),(0x010C, 0x190C),(0x010D, 0x190C),(0x010E, 0x0F0C),(0x0110, 0x190C),(0x0111, 
0x190C),(0x0114, 0x190C),(0x0115, 0x190C),(0x0116, 0x004C),(0x0116, 0xAA8C),(0x0116, 
0xAB0C),(0x0117, 0x190C),(0x0119, 0x190C),(0x011A, 0x190C),(0x011B, 0x190C),(0x011C, 
0x190C),(0x011D, 0x190C),(0x011E, 0x004C),(0x01F9, 0x190C),(0x0120, 0x190C),(0x0121, 
0x190C),(0x0123, 0x190C),(0x0124, 0x190C),(0x0124, 0x198C),(0x0129, 0x190C),(0x012B, 
0x008C),(0x012B, 0x010C),(0x012B, 0x018C),(0x012B, 0x020C),(0x012B, 0x028C),(0x012B, 
0x030C),(0x012B, 0x038C),(0x012B, 0x040C),(0x012E, 0x190C),(0x0130, 0x190C),(0x0131, 
0x190C),(0x0132, 0x190C),(0x0133, 0x190C),(0x0134, 0x190C),(0x0135, 0x190C),(0x0137, 
0x190C),(0x0139, 0x190C),(0x013A, 0x190C),(0x013B, 0x190C),(0x013E, 0x190C),(0x013F, 
0x190C),(0x0142, 0x190C),(0x0143, 0x190C),(0x0144, 0x190C),(0x0145, 0x190C),(0x0146, 
0x190C),(0x0147, 0x008C),(0x0147, 0x010C),(0x0147, 0x018C),(0x0147, 0x020C),(0x0147, 
0x028C),(0x014D, 0x190C),(0x014E, 0x190C),(0x0150, 0x640C),(0x0151, 0x190C),(0x0152, 
0x190C),(0x0153, 0x050C),(0x0153, 0x190C),(0x015F, 0x190C),(0x0160, 0x190C),(0x0161, 
0x008C),(0x0161, 0x010C),(0x0161, 0x018C),(0x0161, 0x020C),(0x0161, 0x028C),(0x0161, 
0x030C),(0x0161, 0x038C),(0x0161, 0x040C),(0x0161, 0x048C),(0x0161, 0x050C),(0x0161, 
0x058C),(0x0161, 0x060C),(0x0161, 0x068C),(0x0161, 0x070C),(0x0161, 0x078C),(0x0161, 
0x080C),(0x0161, 0x088C),(0x0161, 0x090C),(0x0161, 0x098C),(0x0161, 0x0A0C),(0x0161, 
0x0A8C),(0x0161, 0x0B0C),(0x0161, 0x0B8C),(0x0161, 0x0C0C),(0x0161, 0x0C8C),(0x0161, 
0x0D0C),(0x0161, 0x0D8C),(0x0161, 0x0E0C),(0x0161, 0x0E8C),(0x0161, 0x0F0C),(0x0161, 
0x0F8C),(0x0161, 0x100C),(0x0161, 0x108C),(0x0161, 0x110C),(0x0161, 0x118C),(0x0161, 
0x120C),(0x0161, 0x128C),(0x0161, 0x130C),(0x0161, 0x138C),(0x0162, 0x008C),(0x0162, 
0x010C),(0x0162, 0x018C),(0x0162, 0x020C),(0x0162, 0x028C),(0x0162, 0x030C),(0x0162, 
0x038C),(0x0162, 0x040C),(0x0162, 0x048C),(0x0162, 0x050C),(0x0162, 0x058C),(0x0162, 
0x060C),(0x0162, 0x068C),(0x0162, 0x070C),(0x0162, 0x078C),(0x0162, 0x080C),(0x0162, 
0x088C),(0x0162, 0x090C),(0x0162, 0x098C),(0x0162, 0x0A0C),(0x0162, 0x0A8C),(0x0162, 
0x0B0C),(0x0162, 0x0B8C),(0x0162, 0x0C0C),(0x0162, 0x0C8C),(0x0162, 0x0D0C),(0x0162, 
0x0D8C),(0x0162, 0x0E0C),(0x0162, 0x0E8C),(0x0162, 0x0F0C),(0x0162, 0x0F8C),(0x0162, 
0x100C),(0x0162, 0x108C),(0x0162, 0x110C),(0x0162, 0x118C),(0x0162, 0x120C),(0x0162, 
0x128C),(0x0162, 0x130C),(0x0162, 0x138C),(0x0163, 0x190C),(0x0167, 0x190C),(0x0168, 
0x190C),(0x0169, 0x190C),(0x016A, 0x190C),(0x016B, 0x190C),(0x016C, 0x190C),(0x016D, 
0x190C),(0x016F, 0x190C),(0x0181, 0x190C),(0x0182, 0x190C),(0x0185, 0x190C),(0x018B, 
0x190C),(0x018F, 0x190C),(0x0191, 0x190C),(0x0192, 0x190C),(0x0194, 0x190C),(0x019E, 
0x190C),(0x01A3, 0x190C),(0x01A4, 0x190C),(0x01BF, 0x190C),(0x01C0, 0x190C),(0x01C1, 
0x190C),(0x01C2, 0x190C),(0x01C3, 0x190C),(0x01C4, 0x190C),(0x01C6, 0x008C),(0x01C6, 
0x190C),(0x01C8, 0x190C),(0x01C9, 0x190C),(0x01CA, 0x190C),(0x01CC, 0x190C),(0x01CD, 
0x190C),(0x01D8, 0x190C),(0x01D9, 0x190C),(0x01DA, 0x190C),(0x01E2, 0x190C),(0x01E9, 
0x190C),(0x01E3, 0x190C),(0x01E4, 0x190C),(0x01EA, 0x190C),(0x01EB, 0x190C),(0x01EC, 
0x190C),(0x01ED, 0x190C),(0x01EE, 0x190C),(0x01EF, 0x190C),(0x01F0, 0x190C),(0x01F1, 
0x190C),(0x01F2, 0x190C),(0x01F3, 0x190C),(0x01F6, 0x0C8C),(0x01F7, 0x190C),(0x01FD, 
0x190C),(0x01FE, 0x190C),(0x01FA, 0x008C),(0x01FA, 0x010C),(0x01FA, 0x018C),(0x01FA, 
0x020C),(0x01FA, 0x028C),(0x01FB, 0x190C),(0x01FC, 0x190C),(0x0203, 0x008C),(0x0203, 
0x010C),(0x0203, 0x018C),(0x0203, 0x020C),(0x0203, 0x028C),(0x0203, 0x030C),(0x0203, 
0x038C),(0x0203, 0x040C),(0x0203, 0x048C),(0x0203, 0x050C),(0x0203, 0x058C),(0x0203, 
0x060C),(0x0204, 0x190C),(0x0206, 0x190C),(0x0208, 0x190C),(0x020B, 0x190C),(0x020D, 
0x008C),(0x020D, 0x010C),(0x020E, 0x190C),(0x020F, 0x190C),(0x0210, 0x190C),(0x0211, 
0x190C),(0x0212, 0x190C),(0x0213, 0x190C),(0x0214, 0x190C),(0x0215, 0x190C),(0x0216, 
0x190C),(0x0217, 0x190C),(0x0218, 0x190C),(0x0219, 0x190C),(0x021A, 0x190C),(0x021B, 
0x190C),(0x021D, 0x190C),(0x0221, 0x190C),(0x0222, 0x190C),(0x0223, 0x190C),(0x0226, 
0x190C),(0x0227, 0x190C),(0x0229, 0x008C),(0x0229, 0x190C),(0x022B, 0x190C),(0x022C, 
0x190C),(0x0230, 0x008C),(0x0230, 0x010C),(0x0231, 0x190C),(0x0234, 0x190C),(0x0235, 
0x190C),(0x0236, 0x190C),(0x0237, 0x190C),(0x0239, 0x190C),(0x023B, 0x008C),(0x023B, 
0x010C),(0x023B, 0x018C),(0x023B, 0x020C),(0x023B, 0x028C),(0x023B, 0x030C),(0x023B, 
0x048C),(0x023B, 0x050C),(0x023C, 0x190C),(0x023D, 0x028C),(0x023D, 0x050C),(0x023D, 
0x078C),(0x023D, 0x0A0C),(0x023D, 0x0C8C),(0x023F, 0x190C),(0x0243, 0x190C),(0x0246, 
0x190C),(0x0247, 0x190C),(0x0248, 0x190C),(0x0256, 0x190C),(0x0257, 0x190C),(0x025B, 
0x190C),(0x025C, 0x190C),(0x025D, 0x190C),(0x025E, 0x008C),(0x025E, 0x018C),(0x025E, 
0x028C),(0x025E, 0x030C),(0x0266, 0x190C),(0x0267, 0x190C),(0x0268, 0x190C),(0x027A, 
0x190C),(0x027B, 0x190C),(0x027C, 0x190C),(0x027D, 0x190C),(0x027E, 0x190C),(0x027F, 
0x190C),(0x0280, 0x190C),(0x0285, 0x190C),(0x0286, 0x190C),(0x0287, 0x190C),(0x0288, 
0x190C),(0x0289, 0x190C),(0x028A, 0x008C),(0x028A, 0x190C),(0x0292, 0x190C),(0x0296, 
0x190C),(0x0297, 0x190C),(0x0299, 0x190C),(0x029C, 0x190C),(0x029D, 0x190C),(0x029F, 
0x008C),(0x029F, 0x190C),(0x02A1, 0x190C),(0x02A2, 0x190C),(0x02A4, 0x190C),(0x02A6, 
0x190C),(0x02A7, 0x190C),(0x02A8, 0x190C),(0x02A9, 0x190C),(0x02AA, 0x190C),(0x02AB, 
0x190C),(0x02AC, 0x190C),(0x02DB, 0x038C),(0x02DE, 0x668C),(0x02E2, 0x668C),(0x02E3, 
0x008C),(0x02E3, 0x010C),(0x02E3, 0x018C),(0x02E3, 0x020C),(0x02E3, 0x028C),(0x02E3, 
0x030C),(0x02E3, 0x038C),(0x02E3, 0x040C),(0x02E3, 0x048C),(0x02E4, 0x008C),(0x02E4, 
0x010C),(0x02E4, 0x018C),(0x02E4, 0x020C),(0x02E4, 0x028C),(0x02E4, 0x030C),(0x02E4, 
0x038C),(0x02E4, 0x040C),(0x02E4, 0x048C),(0x02E5, 0x190C),(0x02E7, 0x190C),(0x02E8, 
0x190C),(0x02E9, 0x190C),(0x02EA, 0x190C),(0x02F4, 0x190C),(0x02F5, 0x190C),(0x030D, 
0x190C),(0x030F, 0x008C),(0x030F, 0x190C),(0x0311, 0x190C),(0x0312, 0x190C),(0x0315, 
0x190C),(0x031A, 0x190C),(0x031D, 0x190C),(0x033A, 0x190C),(0x033B, 0x190C),(0x033C, 
0x190C),(0x033D, 0x190C),(0x033F, 0x190C),(0x0340, 0x0A0C),(0x0348, 0x008C),(0x0348, 
0x010C),(0x0348, 0x018C),(0x0348, 0x020C),(0x0348, 0x028C),(0x0348, 0x030C),(0x0348, 
0x038C),(0x0348, 0x040C),(0x0348, 0x048C),(0x0348, 0x050C),(0x034D, 0x078C),(0x034D, 
0x0A0C),(0x034D, 0x0C8C),(0x034E, 0x190C),(0x034F, 0x190C),(0x0350, 0x190C),(0x0354, 
0x190C),(0x0355, 0x190C),(0x0356, 0x190C),(0x0357, 0x190C),(0x0361, 0x190C),(0x0362, 
0x190C),(0x0363, 0x190C),(0x0364, 0x190C),(0x0367, 0x190C),(0x0365, 0x190C),(0x0366, 
0x190C),(0x0368, 0x190C),(0x0369, 0x190C),(0x036A, 0x190C),(0x036B, 0x190C),(0x036C, 
0x190C),(0x036D, 0x190C),(0x036E, 0x190C),(0x036F, 0x190C),(0x0370, 0x190C),(0x0372, 
0x190C),(0x0375, 0x190C),(0x037A, 0x048C),(0x037A, 0x050C),(0x037A, 0x058C),(0x037A, 
0x060C),(0x037A, 0x068C),(0x037A, 0x070C),(0x037A, 0x078C),(0x037A, 0x080C),(0x037A, 
0x088C),(0x037A, 0x090C),(0x037B, 0x190C),(0x037D, 0x010C),(0x037D, 0x190C),(0x037E, 
0x190C),(0x037F, 0x190C),(0x0380, 0x190C),(0x0381, 0x190C),(0x0381, 0x1A0C),(0x0381, 
0x1A8C),(0x0381, 0x1B0C),(0x0383, 0x020C),(0x0383, 0x188C),(0x0383, 0x190C),(0x0387, 
0x190C),(0x038B, 0x190C),(0x03B7, 0x008C),(0x03B7, 0x018C),(0x03B7, 0x020C),(0x03B7, 
0x028C),(0x03B7, 0x030C),(0x03B7, 0x038C),(0x03B7, 0x040C),(0x03B7, 0x048C),(0x03B7, 
0x050C),(0x03BC, 0x010C),(0x03BF, 0x190C),(0x03C0, 0x190C),(0x03C1, 0x190C),(0x03C2, 0x190C)]

/-- LevelSetup::build_map_hash_set, as an association list; the keys are
pairwise distinct, so List.lookup agrees with the HashMap get of the
source. -/
def build_map_hash_set : List (Nat × String) := [
(0x1, "SM_SPIRAL_MOUNTAIN"), (0x2, "MM_MUMBOS_MOUNTAIN"), (0x5, "TTC_BLUBBERS_SHIP"), (0x6, 
"TTC_NIPPERS_SHELL"), (0x7, "TTC_TREASURE_TROVE_COVE"), (0xA, "TTC_SANDCASTLE"), (0xB, 
"CC_CLANKERS_CAVERN"), (0xC, "MM_TICKERS_TOWER"), (0xD, "BGS_BUBBLEGLOOP_SWAMP"), (0xE, 
"MM_MUMBOS_SKULL"), (0x10, "BGS_MR_VILE"), (0x11, "BGS_TIPTUP"), (0x12, "GV_GOBIS_VALLEY"), (0x13, 
"GV_MEMORY_GAME"), (0x14, "GV_SANDYBUTTS_MAZE"), (0x15, "GV_WATER_PYRAMID"), (0x16, 
"GV_RUBEES_CHAMBER"), (0x1A, "GV_INSIDE_JINXY"), (0x1B, "MMM_MAD_MONSTER_MANSION"), (0x1C, 
"MMM_CHURCH"), (0x1D, "MMM_CELLAR"), (0x1E, "CS_START_NINTENDO"), (0x1F, "CS_START_RAREWARE"), 
(0x20, "CS_END_NOT_100"), (0x21, "CC_WITCH_SWITCH_ROOM"), (0x22, "CC_INSIDE_CLANKER"), (0x23, 
"CC_GOLDFEATHER_ROOM"), (0x24, "MMM_TUMBLARS_SHED"), (0x25, "MMM_WELL"), (0x26, 
"MMM_NAPPERS_ROOM"), (0x27, "FP_FREEZEEZY_PEAK"), (0x28, "MMM_EGG_ROOM"), (0x29, "MMM_NOTE_ROOM"), 
(0x2A, "MMM_FEATHER_ROOM"), (0x2B, "MMM_SECRET_CHURCH_ROOM"), (0x2C, "MMM_BATHROOM"), (0x2D, 
"MMM_BEDROOM"), (0x2E, "MMM_HONEYCOMB_ROOM"), (0x2F, "MMM_WATERDRAIN_BARREL"), (0x30, 
"MMM_MUMBOS_SKULL"), (0x31, "RBB_RUSTY_BUCKET_BAY"), (0x34, "RBB_ENGINE_ROOM"), (0x35, 
"RBB_WAREHOUSE"), (0x36, "RBB_BOATHOUSE"), (0x37, "RBB_CONTAINER_1"), (0x38, "RBB_CONTAINER_3"), 
(0x39, "RBB_CREW_CABIN"), (0x3A, "RBB_BOSS_BOOM_BOX"), (0x3B, "RBB_STORAGE_ROOM"), (0x3C, 
"RBB_KITCHEN"), (0x3D, "RBB_NAVIGATION_ROOM"), (0x3E, "RBB_CONTAINER_2"), (0x3F, 
"RBB_CAPTAINS_CABIN"), (0x40, "CCW_HUB"), (0x41, "FP_BOGGYS_IGLOO"), (0x43, "CCW_SPRING"), (0x44, 
"CCW_SUMMER"), (0x45, "CCW_AUTUMN"), (0x46, "CCW_WINTER"), (0x47, "BGS_MUMBOS_SKULL"), (0x48, 
"FP_MUMBOS_SKULL"), (0x4A, "CCW_SPRING_MUMBOS_SKULL"), (0x4B, "CCW_SUMMER_MUMBOS_SKULL"), (0x4C, 
"CCW_AUTUMN_MUMBOS_SKULL"), (0x4D, "CCW_WINTER_MUMBOS_SKULL"), (0x53, "FP_CHRISTMAS_TREE"), (0x5A, 
"CCW_SUMMER_ZUBBA_HIVE"), (0x5B, "CCW_SPRING_ZUBBA_HIVE"), (0x5C, "CCW_AUTUMN_ZUBBA_HIVE"), (0x5E, 
"CCW_SPRING_NABNUTS_HOUSE"), (0x5F, "CCW_SUMMER_NABNUTS_HOUSE"), (0x60, 
"CCW_AUTUMN_NABNUTS_HOUSE"), (0x61, "CCW_WINTER_NABNUTS_HOUSE"), (0x62, 
"CCW_WINTER_HONEYCOMB_ROOM"), (0x63, "CCW_AUTUMN_NABNUTS_WATER_SUPPLY"), (0x64, 
"CCW_WINTER_NABNUTS_WATER_SUPPLY"), (0x65, "CCW_SPRING_WHIPCRACK_ROOM"), (0x66, 
"CCW_SUMMER_WHIPCRACK_ROOM"), (0x67, "CCW_AUTUMN_WHIPCRACK_ROOM"), (0x68, 
"CCW_WINTER_WHIPCRACK_ROOM"), (0x69, "GL_MM_LOBBY"), (0x6A, "GL_TTC_AND_CC_PUZZLE"), (0x6B, 
"GL_180_NOTE_DOOR"), (0x6C, "GL_RED_CAULDRON_ROOM"), (0x6D, "GL_TTC_LOBBY"), (0x6E, "GL_GV_LOBBY"), 
(0x6F, "GL_FP_LOBBY"), (0x70, "GL_CC_LOBBY"), (0x71, "GL_STATUE_ROOM"), (0x72, "GL_BGS_LOBBY"), 
(0x73, "UNKNOWN"), (0x74, "GL_GV_PUZZLE"), (0x75, "GL_MMM_LOBBY"), (0x76, "GL_640_NOTE_DOOR"), 
(0x77, "GL_RBB_LOBBY"), (0x78, "GL_RBB_AND_MMM_PUZZLE"), (0x79, "GL_CCW_LOBBY"), (0x7A, 
"GL_CRYPT"), (0x7B, "CS_INTRO_GL_DINGPOT_1"), (0x7C, "CS_INTRO_BANJOS_HOUSE_1"), (0x7D, 
"CS_SPIRAL_MOUNTAIN_1"), (0x7E, "CS_SPIRAL_MOUNTAIN_2"), (0x7F, "FP_WOZZAS_CAVE"), (0x80, 
"GL_FF_ENTRANCE"), (0x81, "CS_INTRO_GL_DINGPOT_2"), (0x82, "CS_ENTERING_GL_MACHINE_ROOM"), (0x83, 
"CS_GAME_OVER_MACHINE_ROOM"), (0x84, "CS_UNUSED_MACHINE_ROOM"), (0x85, "CS_SPIRAL_MOUNTAIN_3"), 
(0x86, "CS_SPIRAL_MOUNTAIN_4"), (0x87, "CS_SPIRAL_MOUNTAIN_5"), (0x88, "CS_SPIRAL_MOUNTAIN_6"), 
(0x89, "CS_INTRO_BANJOS_HOUSE_2"), (0x8A, "CS_INTRO_BANJOS_HOUSE_3"), (0x8B, "RBB_ANCHOR_ROOM"), 
(0x8C, "SM_BANJOS_HOUSE"), (0x8D, "MMM_INSIDE_LOGGO"), (0x8E, "GL_FURNACE_FUN"), (0x8F, 
"TTC_SHARKFOOD_ISLAND"), (0x90, "GL_BATTLEMENTS"), (0x91, "FILE_SELECT"), (0x92, "GV_SNS_CHAMBER"), 
(0x93, "GL_DINGPOT"), (0x94, "CS_INTRO_SPIRAL_7"), (0x95, "CS_END_ALL_100"), (0x96, 
"CS_END_BEACH_1"), (0x97, "CS_END_BEACH_2"), (0x98, "CS_END_SPIRAL_MOUNTAIN_1"), (0x99, 
"CS_END_SPIRAL_MOUNTAIN_")]

def LevelVoxelType.new (bytes : List Nat) : Option LevelVoxelType :=
  if bytes.length = 20 then
    let b := fun (i : Nat) => bytes.getD i 0
    let maybe_script_id := toU16 (b 6) (b 7)
    let maybe_object_id := toU16 (b 8) (b 9)
    let bit6 := (b 7 &&& 0x7F) >>> 1
    let unk_10 := toU32 (b 15) (b 16) (b 17) (b 18)
    let actor := LevelVoxelType.Actor
      { x := toI16 (b 0) (b 1)
        y := toI16 (b 2) (b 3)
        z := toI16 (b 4) (b 5)
        script_id := maybe_script_id
        object_id := maybe_object_id
        unknown_1 := b 10
        unknown_2 := b 11
        rotation := b 12
        unknown_3 := b 13
        size := toU16 (b 14) (b 15)
        current_nodes := (unk_10 >>> 8) &&& 0xFFF
        next_nodes := unk_10 >>> 20 }
    if (maybe_object_id, maybe_script_id) ∈ get_known_actor_objects then some actor
    else if (maybe_object_id, maybe_script_id) ∈ get_known_timed_objects then some actor
    else if (maybe_object_id, maybe_script_id) ∈ get_known_script_objects then some actor
    else if bit6 = 3 ∧ maybe_object_id < 311 then
      some (LevelVoxelType.Radius (RadiusNode.from_bytes bytes))
    else if bit6 = 4 then some (LevelVoxelType.Radius (RadiusNode.from_bytes bytes))
    else some actor
  else if bytes.length = 12 then
    let b := fun (i : Nat) => bytes.getD i 0
    some (LevelVoxelType.Sprite
      { object_id := toU16 (b 0) (b 1)
        size := toU16 (b 2) (b 3)
        x := toI16 (b 4) (b 5)
        y := toI16 (b 6) (b 7)
        z := toI16 (b 8) (b 9)
        unknown_1 := b 10
        unknown_2 := b 11 })
  else none

structure LevelCube where
  bytes : LevelVoxelType
deriving DecidableEq

structure LevelCubes where
  start_position : Int × Int × Int
  end_position : Int × Int × Int
  cubes : List LevelCube
deriving DecidableEq

structure NodeData1 where
  position : Option (F32 × F32 × F32)
  horizontal_speed : Option F32
  vertical_speed : Option F32
  rotation : Option F32
  accelaration : Option F32
  pitch_yaw_and_roll : Option (F32 × F32 × F32)
  unknown : Option Int
deriving DecidableEq

structure NodeData2 where
  position : Option (F32 × F32 × F32)
  rotation : Option (F32 × F32 × F32)
deriving DecidableEq

structure NodeData3 where
  position : Option (F32 × F32 × F32)
  horizontal_speedd : Option F32
  vertical_speed : Option F32
  rotation : Option F32
  accelaration : Option F32
  close_distance : Option F32
  far_distance : Option F32
  pitch_yaw_roll : Option (F32 × F32 × F32)
  unknown : Option Int
deriving DecidableEq

structure NodeData4 where
  unknown : Option Int
deriving DecidableEq

inductive NodeDataTypes where
  | NodeData1 (d : NodeData1)
  | NodeData2 (d : NodeData2)
  | NodeData3 (d : NodeData3)
  | NodeData4 (d : NodeData4)
deriving DecidableEq

structure CameraNode where
  index : Int
  node_type : Nat
  node_data : List NodeDataTypes
deriving DecidableEq

structure LightingNode where
  position : Option (F32 × F32 × F32)
  unknown_1 : Option F32
  unknown_2 : Option F32
  rgb : Option (Nat × Nat × Nat)
deriving DecidableEq

/-- The image formats of asset.rs. -/
inductive ImgFmt where
  | CI4
  | CI8
  | I4
  | I8
  | RGBA16
  | RGBA32
  | IA4
  | IA8
  | Unknown (code : Nat)
deriving DecidableEq

/-- The asset type discriminators of asset.rs. -/
inductive AssetType where
  | Animation
  | Binary
  | DemoInput
  | Dialog
  | GruntyQuestion
  | LevelSetup
  | Midi
  | Model
  | QuizQuestion
  | Sprite (fmt : ImgFmt)
deriving DecidableEq

structure LevelSetup where
  bytes : List Nat
  cubes : List LevelCubes
  camera_nodes : List CameraNode
  lighting_nodes : List LightingNode
deriving DecidableEq

/-! ## The LevelSetup parser (LevelSetup::from_bytes and its loops)

Every loop of the Rust source is a fuel-indexed structurally recursive
function here; each iteration consumes at least one byte, so fuel equal to
the remaining length plus one never runs out before the Rust loop would
stop or panic. -/

/-- The number of iterations of a Rust inclusive range loop a..=b over i32. -/
def countRange (a b : Int) : Nat := if a ≤ b then (b - a + 1).toNat else 0

/-- LevelSetup::get_cubes_from_reader: the tagged-block loop of one voxel;
returns the accumulated cube records and the remaining bytes. -/
def get_cubes_from_reader : Nat → List Nat → List LevelCube → Option (List LevelCube × List Nat)
  | 0, _, _ => none
  | fuel + 1, r, out_cubes =>
    match read_u8 r with
    | none => none
    | some (cmd, r1) =>
      match cmd with
      | 0 =>
        match read_words 6 r1 with
        | none => none
        | some (_, r2) => get_cubes_from_reader fuel r2 out_cubes
      | 1 => some (out_cubes, r1)
      | 2 => none
      | 3 =>
        match read_u8 r1 with
        | none => none
        | some (cube_type, r2) =>
          match read_u8 r2 with
          | none => none
          | some (count, r3) =>
            match (match cube_type with
                   | 0xA => some 0xB
                   | 0x6 => some 0x7
                   | _ => none) with
            | none => none
            | some next_expected =>
              match read_if_expected next_expected (read_u8_n (count * 20)) r3 with
              | none => none
              | some (none, r4) => get_cubes_from_reader fuel r4 out_cubes
              | some (some cubes, r4) =>
                match (chunksR 20 cubes).mapM LevelVoxelType.new with
                | none => none
                | some vs =>
                  get_cubes_from_reader fuel r4 (out_cubes ++ vs.map LevelCube.mk)
      | 8 =>
        match read_u8 r1 with
        | none => none
        | some (count, r2) =>
          match read_if_expected 9 (read_u8_n (count * 12)) r2 with
          | none => none
          | some (none, r3) => get_cubes_from_reader fuel r3 out_cubes
          | some (some cubes, r3) =>
            match (chunksR 12 cubes).mapM LevelVoxelType.new with
            | none => none
            | some vs =>
              get_cubes_from_reader fuel r3 (out_cubes ++ vs.map LevelCube.mk)
      | _ => none

/-- The x-outer, y-middle, z-inner triple loop over the lattice of the
voxel section, flattened to its iteration count (the three loop variables
are unused in the source); a lattice point whose cube list is empty pushes
nothing. -/
def voxel_volume_loop :
    Nat → Int × Int × Int → Int × Int × Int → List Nat → List LevelCubes →
    Option (List LevelCubes × List Nat)
  | 0, _, _, r, acc => some (acc, r)
  | n + 1, cubes_from, cubes_to, r, acc =>
    match get_cubes_from_reader (r.length + 1) r [] with
    | none => none
    | some (cubes, r1) =>
      voxel_volume_loop n cubes_from cubes_to r1
        (if cubes.isEmpty then acc
         else acc ++ [{ start_position := cubes_from, end_position := cubes_to, cubes := cubes }])

/-- The body of the top-level command 1 (cubeList_fromFile): the gated
start vector, the bare end vector, one voxel per lattice point, and a
trailing 0-gated byte. -/
def cube_list_from_file (r : List Nat) :
    Option (((Int × Int × Int) × (Int × Int × Int) × List LevelCubes) × List Nat) :=
  match read_u8 r with
  | none => none
  | some (should_read, r1) =>
    match (if should_read = 1 then read_3i32 r1 else some ((0, 0, 0), r1)) with
    | none => none
    | some (cubes_from, r2) =>
      match read_3i32 r2 with
      | none => none
      | some (cubes_to, r3) =>
        let n := countRange cubes_from.1 cubes_to.1 *
          (countRange cubes_from.2.1 cubes_to.2.1 * countRange cubes_from.2.2 cubes_to.2.2)
        match voxel_volume_loop n cubes_from cubes_to r3 [] with
        | none => none
        | some (cubes, r4) =>
          match read_if_expected 0 (fun r5 => some (0, r5)) r4 with
          | none => none
          | some (_, r5) => some ((cubes_from, cubes_to, cubes), r5)

def NodeData1.init : NodeData1 :=
  ⟨none, none, none, none, none, none, none⟩

def NodeData2.init : NodeData2 := ⟨none, none⟩

def NodeData3.init : NodeData3 :=
  ⟨none, none, none, none, none, none, none, none, none⟩

def NodeData4.init : NodeData4 := ⟨none⟩

/-- cameraNodeType1_fromFile section loop. -/
def node_data_1_loop : Nat → List Nat → NodeData1 → Option (NodeData1 × List Nat)
  | 0, _, _ => none
  | fuel + 1, r, st =>
    match read_u8 r with
    | none => none
    | some (tag, r1) =>
      match tag with
      | 0 => some (st, r1)
      | 1 =>
        match read_3f32 r1 with
        | none => none
        | some (v, r2) => node_data_1_loop fuel r2 { st with position := some v }
      | 2 =>
        match read_f32 r1 with
        | none => none
        | some (a, r2) =>
          match read_f32 r2 with
          | none => none
          | some (b, r3) =>
            node_data_1_loop fuel r3 { st with horizontal_speed := some a, vertical_speed := some b }
      | 3 =>
        match read_f32 r1 with
        | none => none
        | some (a, r2) =>
          match read_f32 r2 with
          | none => none
          | some (b, r3) =>
            node_data_1_loop fuel r3 { st with rotation := some a, accelaration := some b }
      | 4 =>
        match read_3f32 r1 with
        | none => none
        | some (v, r2) => node_data_1_loop fuel r2 { st with pitch_yaw_and_roll := some v }
      | 5 =>
        match read_i32 r1 with
        | none => none
        | some (w, r2) => node_data_1_loop fuel r2 { st with unknown := some w }
      | _ => none

/-- cameraNodeType2_fromFile section loop. -/
def node_data_2_loop : Nat → List Nat → NodeData2 → Option (NodeData2 × List Nat)
  | 0, _, _ => none
  | fuel + 1, r, st =>
    match read_u8 r with
    | none => none
    | some (tag, r1) =>
      match tag with
      | 0 => some (st, r1)
      | 1 =>
        match read_3f32 r1 with
        | none => none
        | some (v, r2) => node_data_2_loop fuel r2 { st with position := some v }
      | 2 =>
        match read_3f32 r1 with
        | none => none
        | some (v, r2) => node_data_2_loop fuel r2 { st with rotation := some v }
      | _ => none

/-- cameraNodeType3_fromFile section loop. -/
def node_data_3_loop : Nat → List Nat → NodeData3 → Option (NodeData3 × List Nat)
  | 0, _, _ => none
  | fuel + 1, r, st =>
    match read_u8 r with
    | none => none
    | some (tag, r1) =>
      match tag with
      | 0 => some (st, r1)
      | 1 =>
        match read_3f32 r1 with
        | none => none
        | some (v, r2) => node_data_3_loop fuel r2 { st with position := some v }
      | 2 =>
        match read_f32 r1 with
        | none => none
        | some (a, r2) =>
          match read_f32 r2 with
          | none => none
          | some (b, r3) =>
            node_data_3_loop fuel r3 { st with horizontal_speedd := some a, vertical_speed := some b }
      | 3 =>
        match read_f32 r1 with
        | none => none
        | some (a, r2) =>
          match read_f32 r2 with
          | none => none
          | some (b, r3) =>
            node_data_3_loop fuel r3 { st with rotation := some a, accelaration := some b }
      | 4 =>
        match read_3f32 r1 with
        | none => none
        | some (v, r2) => node_data_3_loop fuel r2 { st with pitch_yaw_roll := some v }
      | 5 =>
        match read_i32 r1 with
        | none => none
        | some (w, r2) => node_data_3_loop fuel r2 { st with unknown := some w }
      | 6 =>
        match read_f32 r1 with
        | none => none
        | some (a, r2) =>
          match read_f32 r2 with
          | none => none
          | some (b, r3) =>
            node_data_3_loop fuel r3 { st with close_distance := some a, far_distance := some b }
      | _ => none

/-- cameraNodeType4_fromFile section loop. -/
def node_data_4_loop : Nat → List Nat → NodeData4 → Option (NodeData4 × List Nat)
  | 0, _, _ => none
  | fuel + 1, r, st =>
    match read_u8 r with
    | none => none
    | some (tag, r1) =>
      match tag with
      | 0 => some (st, r1)
      | 1 =>
        match read_i32 r1 with
        | none => none
        | some (w, r2) => node_data_4_loop fuel r2 { st with unknown := some w }
      | _ => none

/-- The node loop of top-level command 3 (ncCameraNodeList_fromFile).
A node whose type byte resolves to 0 breaks out of the loop without being
pushed, exactly as the Rust match arm 0 does. -/
def camera_node_list_loop : Nat → List Nat → List CameraNode → Option (List CameraNode × List Nat)
  | 0, _, _ => none
  | fuel + 1, r, acc =>
    match read_u8 r with
    | none => none
    | some (cmd, r1) =>
      match cmd with
      | 0 => some (acc, r1)
      | 1 =>
        match read_i16 r1 with
        | none => none
        | some (camera_node_index, r2) =>
          match read_if_expected 2 read_u8 r2 with
          | none => none
          | some (topt, r3) =>
            let camera_node_type := topt.getD 0
            match camera_node_type with
            | 0 => some (acc, r3)
            | 1 =>
              match node_data_1_loop (r3.length + 1) r3 NodeData1.init with
              | none => none
              | some (d, r4) =>
                camera_node_list_loop fuel r4
                  (acc ++ [{ index := camera_node_index, node_type := camera_node_type,
                             node_data := [NodeDataTypes.NodeData1 d] }])
            | 2 =>
              match node_data_2_loop (r3.length + 1) r3 NodeData2.init with
              | none => none
              | some (d, r4) =>
                camera_node_list_loop fuel r4
                  (acc ++ [{ index := camera_node_index, node_type := camera_node_type,
                             node_data := [NodeDataTypes.NodeData2 d] }])
            | 3 =>
              match node_data_3_loop (r3.length + 1) r3 NodeData3.init with
              | none => none
              | some (d, r4) =>
                camera_node_list_loop fuel r4
                  (acc ++ [{ index := camera_node_index, node_type := camera_node_type,
                             node_data := [NodeDataTypes.NodeData3 d] }])
            | 4 =>
              match node_data_4_loop (r3.length + 1) r3 NodeData4.init with
              | none => none
              | some (d, r4) =>
                camera_node_list_loop fuel r4
                  (acc ++ [{ index := camera_node_index, node_type := camera_node_type,
                             node_data := [NodeDataTypes.NodeData4 d] }])
            | _ => none
      | _ => none

/-- The body of one gate-2 lighting entry: position, then the gate-3 pair
of floats, then the gate-4 triple of words whose low bytes are the rgb
channels; missing inner gates substitute zero defaults. -/
def lighting_entry (r : List Nat) :
    Option (((F32 × F32 × F32) × (F32 × F32) × (Nat × Nat × Nat)) × List Nat) :=
  match read_3f32 r with
  | none => none
  | some (position, r1) =>
    match read_if_expected 3 (fun ra =>
      match read_f32 ra with
      | none => none
      | some (f0, ra1) =>
        match read_f32 ra1 with
        | none => none
        | some (f1, ra2) =>
          match read_if_expected 4 (fun rb =>
            match read_u8_n 12 rb with
            | none => none
            | some (rgb, rb1) => some ((rgb.getD 3 0, rgb.getD 7 0, rgb.getD 11 0), rb1)) ra2 with
          | none => none
          | some (some rgb, ra3) => some (((f0, f1), rgb), ra3)
          | some (none, ra3) => some (((f0, f1), (0, 0, 0)), ra3)) r1 with
    | none => none
    | some (some (uf, rgb), r2) => some ((position, uf, rgb), r2)
    | some (none, r2) => some ((position, (zeroF32, zeroF32), (0, 0, 0)), r2)

/-- The entry loop of top-level command 4 (lightingVectorList_fromFile);
an entry whose gate 2 is absent pushes nothing and the loop continues. -/
def lighting_vector_list_loop :
    Nat → List Nat → List LightingNode → Option (List LightingNode × List Nat)
  | 0, _, _ => none
  | fuel + 1, r, acc =>
    match read_u8 r with
    | none => none
    | some (cmd, r1) =>
      match cmd with
      | 0 => some (acc, r1)
      | 1 =>
        match read_if_expected 2 lighting_entry r1 with
        | none => none
        | some (none, r2) => lighting_vector_list_loop fuel r2 acc
        | some (some (position, uf, rgb), r2) =>
          lighting_vector_list_loop fuel r2
            (acc ++ [{ position := some position, unknown_1 := some uf.1,
                       unknown_2 := some uf.2, rgb := some rgb }])
      | _ => none

/-- The top-level command dispatcher loop of LevelSetup::from_bytes. -/
def level_setup_top_loop :
    Nat → List Nat → List LevelCubes × List CameraNode × List LightingNode →
    Option (List LevelCubes × List CameraNode × List LightingNode)
  | 0, _, _ => none
  | fuel + 1, r, (cubes, cams, lights) =>
    match read_u8 r with
    | none => none
    | some (cmd, r1) =>
      match cmd with
      | 0 => some (cubes, cams, lights)
      | 1 =>
        match cube_list_from_file r1 with
        | none => none
        | some ((_, _, sec), r2) => level_setup_top_loop fuel r2 (cubes ++ sec, cams, lights)
      | 3 =>
        match camera_node_list_loop (r1.length + 1) r1 cams with
        | none => none
        | some (cams2, r2) => level_setup_top_loop fuel r2 (cubes, cams2, lights)
      | 4 =>
        match lighting_vector_list_loop (r1.length + 1) r1 lights with
        | none => none
        | some (lights2, r2) => level_setup_top_loop fuel r2 (cubes, cams, lights2)
      | _ => none

def DEBUG_MAP : String := "SM_SPIRAL_MOUNTAIN"

/-- Running the three-section command loop over a whole byte string. -/
def LevelSetup.parseStructured (in_bytes : List Nat) :
    Option (List LevelCubes × List CameraNode × List LightingNode) :=
  level_setup_top_loop (in_bytes.length + 1) in_bytes ([], [], [])

/-- LevelSetup::from_bytes. The usize subtraction i - 1820 of the source
panics (debug) or wraps to a value far outside the map table (release) when
i is below 1820; both end in a panic before any input byte is looked at,
modelled as none. A known map id whose name differs from DEBUG_MAP, or map
id 113, short-circuits to the opaque asset with empty sections. -/
def LevelSetup.from_bytes (in_bytes : List Nat) (i : Nat) : Option LevelSetup :=
  if i < 1820 then none
  else
    let map_idx := i - 1820
    match List.lookup map_idx build_map_hash_set with
    | none => none
    | some map_name =>
      if map_idx = 113 ∨ map_name ≠ DEBUG_MAP then
        some { bytes := in_bytes, cubes := [], camera_nodes := [], lighting_nodes := [] }
      else
        match LevelSetup.parseStructured in_bytes with
        | none => none
        | some (cubes, cams, lights) =>
          some { bytes := in_bytes, cubes := cubes, camera_nodes := cams,
                 lighting_nodes := lights }

def LevelSetup.to_bytes (a : LevelSetup) : List Nat := a.bytes

def LevelSetup.get_type (_ : LevelSetup) : AssetType := AssetType.LevelSetup

/-! ## Pixel-format converters (asset.rs, impl Texture)

Pure byte-list functions. The indexed formats return Option because the
Rust code indexes the palette and panics when the index is out of range. -/

/-- The RGB5551 halfword expansion shared by rgba16_to_rgba32,
ci4_to_rgba32 and ci8_to_rgba32 (the source repeats this block inline). -/
def rgba5551_to_rgba32 (b0 b1 : Nat) : List Nat :=
  let val := toU16 b0 b1
  let r16 := (val >>> 11) &&& 0x1f
  let g16 := (val >>> 6) &&& 0x1f
  let b16 := (val >>> 1) &&& 0x1f
  let a16 := val &&& 0x1
  let r32 := (r16 <<< 3) ||| (r16 >>> 3)
  let g32 := (g16 <<< 3) ||| (g16 >>> 3)
  let b32 := (b16 <<< 3) ||| (b16 >>> 3)
  let a32 := sar7 ((a16 <<< 7) % 256)
  [r32, g32, b32, a32]

/-- Texture::rgba16_to_rgba32. -/
def rgba16_to_rgba32 (rgba16 : List Nat) : List Nat :=
  (chunksExact 2 rgba16).flatMap fun a => rgba5551_to_rgba32 (a.getD 0 0) (a.getD 1 0)

/-- Texture::ci4_to_rgba32. -/
def ci4_to_rgba32 (ci4 palatte : List Nat) : Option (List Nat) :=
  let pal := (chunksExact 2 palatte).map fun a => rgba5551_to_rgba32 (a.getD 0 0) (a.getD 1 0)
  (((ci4.flatMap fun a => [a >>> 4, a &&& 0xF]).mapM fun indx => pal.get? indx)).map List.flatten

/-- Texture::ci8_to_rgba32. -/
def ci8_to_rgba32 (ci8 palatte : List Nat) : Option (List Nat) :=
  let pal := (chunksExact 2 palatte).map fun a => rgba5551_to_rgba32 (a.getD 0 0) (a.getD 1 0)
  ((ci8.mapM fun indx => pal.get? indx)).map List.flatten

/-- Texture::i4_to_rgba32. -/
def i4_to_rgba32 (i_4 : List Nat) : List Nat :=
  i_4.flatMap fun a =>
    let val1 := (a &&& 0xF0) ||| (a >>> 4)
    let val2 := ((a <<< 4) % 256) ||| (a &&& 0xF)
    [val1, val1, val1, 0xFF, val2, val2, val2, 0xFF]

/-- Texture::i8_to_rgba32. -/
def i8_to_rgba32 (i_8 : List Nat) : List Nat :=
  i_8.flatMap fun a => [a, a, a, 0xFF]

/-- Texture::ia4_to_rgba32, byte for byte from the source: the first texel
ors the whole shifted byte into the replication, the second texel masks its
three intensity bits first. -/
def ia4_to_rgba32 (ia4 : List Nat) : List Nat :=
  ia4.flatMap fun a =>
    let i1 := (a &&& 0xE0) ||| (a >>> 3) ||| (a >>> 6)
    let a1 := sar7 ((a <<< 3) % 256)
    let i2 := (a >>> 1) &&& 0x7
    let i2r := (i2 <<< 5) ||| (i2 <<< 2) ||| (i2 >>> 1)
    let a2 := sar7 ((a <<< 7) % 256)
    [i1, i1, i1, a1, i2r, i2r, i2r, a2]

/-- Texture::ia8_to_rgba32. -/
def ia8_to_rgba32 (ia8 : List Nat) : List Nat :=
  ia8.flatMap fun a =>
    let val := (a &&& 0xF0) ||| (a >>> 4)
    let alpha := ((a <<< 4) % 256) ||| (a &&& 0xF)
    [val, val, val, alpha]

/-! ## Sprite codec (asset.rs)

These functions address the input buffer by absolute offsets, as the Rust
code slices it, so the embedding keeps explicit offsets. -/

/-- Rust subslice bin with offsets off .. off + n, none when it would panic. -/
def sliceGet (bin : List Nat) (off n : Nat) : Option (List Nat) :=
  if off + n ≤ bin.length then some ((bin.drop off).take n) else none

/-- (offset + (8 - 1)) and not (8 - 1): align an offset up to a multiple of 8. -/
def align8 (o : Nat) : Nat := ((o + 7) / 8) * 8

structure SpriteChunk where
  x : Int
  y : Int
  w : Nat
  h : Nat
  pixel_data : List Nat
deriving DecidableEq

/-- SpriteChunk::new: 8-byte header, align to 8, then w times h times
bits-per-pixel over 8 pixel bytes; returns the chunk and the new offset. -/
def SpriteChunk.new (bin : List Nat) (file_offset : Nat) (format : ImgFmt) :
    Option (SpriteChunk × Nat) :=
  match sliceGet bin file_offset 8 with
  | none => none
  | some chunk_bin =>
    let x := toI16 (chunk_bin.getD 0 0) (chunk_bin.getD 1 0)
    let y := toI16 (chunk_bin.getD 2 0) (chunk_bin.getD 3 0)
    let w := toU16 (chunk_bin.getD 4 0) (chunk_bin.getD 5 0)
    let h := toU16 (chunk_bin.getD 6 0) (chunk_bin.getD 7 0)
    let o1 := align8 (file_offset + 8)
    let pxl_size : Nat :=
      match format with
      | ImgFmt.I4 | ImgFmt.IA4 | ImgFmt.CI4 => 4
      | ImgFmt.I8 | ImgFmt.IA8 | ImgFmt.CI8 => 8
      | ImgFmt.RGBA16 => 16
      | ImgFmt.RGBA32 => 32
      | ImgFmt.Unknown _ => 0
    let data_size := w * h * pxl_size / 8
    match sliceGet bin o1 data_size with
    | none => none
    | some data => some ({ x := x, y := y, w := w, h := h, pixel_data := data }, o1 + data_size)

structure SpriteFrame where
  w : Nat
  h : Nat
  header : List Nat
  chk_hdrs : List (List Nat)
  palette : Option (List Nat)
  pixel_data : List Nat
deriving DecidableEq

/-- The per-format chunk decoding dispatch inside SpriteFrame::new; note
that the source sends I8 through the I4 converter and IA8 through the IA4
converter. -/
def frame_chunk_to_rgba32 (format : ImgFmt) (palette : List Nat) (c : SpriteChunk) :
    Option (List Nat) :=
  match format with
  | ImgFmt.CI4 => ci4_to_rgba32 c.pixel_data palette
  | ImgFmt.CI8 => ci8_to_rgba32 c.pixel_data palette
  | ImgFmt.I4 => some (i4_to_rgba32 c.pixel_data)
  | ImgFmt.I8 => some (i4_to_rgba32 c.pixel_data)
  | ImgFmt.RGBA16 => some (rgba16_to_rgba32 c.pixel_data)
  | ImgFmt.RGBA32 => some c.pixel_data
  | ImgFmt.IA4 => some (ia4_to_rgba32 c.pixel_data)
  | ImgFmt.IA8 => some (ia4_to_rgba32 c.pixel_data)
  | ImgFmt.Unknown _ => some []

/-- One row of the chunk compositing: write each 4-byte pixel at
(ox + i, fy), dropping destinations outside the w times h canvas. -/
def paint_row (w h : Nat) (fy ox : Int) (row : List (List Nat))
    (canvas : List (List (List Nat))) : List (List (List Nat)) :=
  row.enum.foldl
    (fun cv ip =>
      let fx : Int := ox + (ip.1 : Int)
      if 0 ≤ fx ∧ fx < (w : Int) ∧ 0 ≤ fy ∧ fy < (h : Int) then
        match cv.get? fy.toNat with
        | some crow => cv.set fy.toNat (crow.set fx.toNat ip.2)
        | none => cv
      else cv)
    canvas

/-- The compositing double loop of SpriteFrame::new for one chunk. -/
def paint_chunk (w h : Nat) (ox oy : Int) (rows : List (List (List Nat)))
    (canvas : List (List (List Nat))) : List (List (List Nat)) :=
  rows.enum.foldl (fun cv jr => paint_row w h (oy + (jr.1 : Int)) ox jr.2 cv) canvas

/-- Composite one decoded chunk onto the canvas; a frame with exactly one
chunk paints at the origin, ignoring the declared chunk origin. Rust
chunks_exact with chunk size 0 panics, hence the w = 0 guard. -/
def composite_chunk (w h chunk_cnt : Nat) (canvas : List (List (List Nat)))
    (chnk : SpriteChunk) (raw_data : List Nat) : Option (List (List (List Nat))) :=
  if 4 * chnk.w = 0 then none
  else
    let rows := (chunksExact (4 * chnk.w) raw_data).map fun row => chunksExact 4 row
    if chunk_cnt = 1 then some (paint_chunk w h 0 0 rows canvas)
    else some (paint_chunk w h chnk.x chnk.y rows canvas)

/-- Decode and composite every chunk of a frame in order. -/
def composite_all (w h chunk_cnt : Nat) (format : ImgFmt) (palette : List Nat) :
    List (List (List Nat)) → List SpriteChunk → Option (List (List (List Nat)))
  | canvas, [] => some canvas
  | canvas, chnk :: rest =>
    match frame_chunk_to_rgba32 format palette chnk with
    | none => none
    | some raw_data =>
      match composite_chunk w h chunk_cnt canvas chnk raw_data with
      | none => none
      | some canvas2 => composite_all w h chunk_cnt format palette canvas2 rest

/-- The while i < chunk_cnt loop of SpriteFrame::new: an 8-byte header copy
is pushed, then SpriteChunk::new re-reads it and the pixel data. -/
def read_chunks_loop (bin : List Nat) (format : ImgFmt) :
    Nat → Nat → List (List Nat) × List SpriteChunk →
    Option ((List (List Nat) × List SpriteChunk) × Nat)
  | off, 0, st => some (st, off)
  | off, i + 1, (hdrs, chks) =>
    match sliceGet bin off 8 with
    | none => none
    | some hdr =>
      match SpriteChunk.new bin off format with
      | none => none
      | some (c, off2) => read_chunks_loop bin format off2 i (hdrs ++ [hdr], chks ++ [c])

/-- SpriteFrame::new. -/
def SpriteFrame.new (bin : List Nat) (file_offset : Nat) (format : ImgFmt) :
    Option SpriteFrame :=
  match sliceGet bin file_offset 0x14 with
  | none => none
  | some header =>
    let w := toU16 (header.getD 4 0) (header.getD 5 0)
    let h := toU16 (header.getD 6 0) (header.getD 7 0)
    let chunk_cnt := toU16 (header.getD 8 0) (header.getD 9 0)
    let canvas0 : List (List (List Nat)) :=
      List.replicate h (List.replicate w [0, 0, 0, 0])
    let offset := file_offset + 0x14
    match (match format with
           | ImgFmt.CI4 =>
             let o := align8 offset
             match sliceGet bin o 0x20 with
             | none => none
             | some pal =>
               match read_chunks_loop bin format (o + 0x20) chunk_cnt ([], []) with
               | none => none
               | some (st, _) => some (pal, st)
           | ImgFmt.CI8 =>
             let o := align8 offset
             match sliceGet bin o 0x200 with
             | none => none
             | some pal =>
               match read_chunks_loop bin format (o + 0x200) chunk_cnt ([], []) with
               | none => none
               | some (st, _) => some (pal, st)
           | ImgFmt.I4 | ImgFmt.I8 | ImgFmt.RGBA32 | ImgFmt.RGBA16 =>
             match read_chunks_loop bin format offset chunk_cnt ([], []) with
             | none => none
             | some (st, _) => some (([] : List Nat), st)
           | _ => some (([] : List Nat), ([], []))) with
    | none => none
    | some (palette, (chk_hdrs, chunks)) =>
      match composite_all w h chunk_cnt format palette canvas0 chunks with
      | none => none
      | some canvas =>
        let pal : Option (List Nat) :=
          match format with
          | ImgFmt.CI4 | ImgFmt.CI8 => some palette
          | _ => none
        some { w := w, h := h, header := header, chk_hdrs := chk_hdrs, palette := pal,
               pixel_data := canvas.flatten.flatten }

structure Sprite where
  format : ImgFmt
  frame : List SpriteFrame
  bytes : List Nat
deriving DecidableEq

/-- The if let ImgFmt::Unknown(_) test of Sprite::from_bytes. -/
def ImgFmt.isUnknown : ImgFmt → Bool
  | ImgFmt.Unknown _ => true
  | _ => false

/-- Sprite::from_bytes. -/
def Sprite.from_bytes (in_bytes : List Nat) : Option Sprite :=
  match sliceGet in_bytes 0 4 with
  | none => none
  | some hdr4 =>
    let frame_cnt := toU16 (hdr4.getD 0 0) (hdr4.getD 1 0)
    let format := toU16 (hdr4.getD 2 0) (hdr4.getD 3 0)
    let frmt : ImgFmt :=
      match format with
      | 0x0001 => ImgFmt.CI4
      | 0x0004 => ImgFmt.CI8
      | 0x0020 => ImgFmt.I4
      | 0x0040 => ImgFmt.I8
      | 0x0400 => ImgFmt.RGBA16
      | 0x0800 => ImgFmt.RGBA32
      | _ => ImgFmt.Unknown format
    if frmt.isUnknown then some { format := frmt, frame := [], bytes := in_bytes }
    else
      if 0x100 < frame_cnt then
        match SpriteChunk.new in_bytes 8 ImgFmt.RGBA16 with
        | none => none
        | some (chunk, _) =>
          match sliceGet in_bytes 8 8 with
          | none => none
          | some hdr8 =>
            some { format := frmt,
                   frame := [{ w := chunk.w, h := chunk.h, header := [], chk_hdrs := [hdr8],
                               palette := none,
                               pixel_data := rgba16_to_rgba32 chunk.pixel_data }],
                   bytes := in_bytes }
      else
        if in_bytes.length < 0x10 then none
        else
          let offs := ((chunksExact 4 (in_bytes.drop 0x10)).take frame_cnt).map fun a =>
            toU32 (a.getD 0 0) (a.getD 1 0) (a.getD 2 0) (a.getD 3 0)
          match offs.mapM (fun o => SpriteFrame.new in_bytes (0x10 + o + 4 * frame_cnt) frmt) with
          | none => none
          | some frames => some { format := frmt, frame := frames, bytes := in_bytes }

def Sprite.to_bytes (s : Sprite) : List Nat := s.bytes

def Sprite.get_type (s : Sprite) : AssetType := AssetType.Sprite s.format

/-! ## Spec-side and statement helper definitions -/

/-- The spec-side RGB5551 halfword expansion, following the words of the
specification: each 5-bit channel expands with c8 = (c5 <<< 3) ||| (c5 >>> 3)
and the single alpha bit sign-extends to 0 or 255. -/
def spec_rgba5551_expand (val : Nat) : List Nat :=
  let r5 := (val >>> 11) &&& 0x1f
  let g5 := (val >>> 6) &&& 0x1f
  let b5 := (val >>> 1) &&& 0x1f
  [(r5 <<< 3) ||| (r5 >>> 3), (g5 <<< 3) ||| (g5 >>> 3), (b5 <<< 3) ||| (b5 >>> 3),
    if val &&& 1 = 1 then 255 else 0]

/-- The records a 9-gated props payload contributes to a voxel: the
length-12 chunks of the payload, each through LevelVoxelType::new. -/
def props_records (payload : List Nat) : List LevelCube :=
  match (chunksR 12 payload).mapM LevelVoxelType.new with
  | none => []
  | some vs => vs.map LevelCube.mk

/-! ## Helper lemmas -/

theorem list_lookup_mem :
    ∀ (l : List (Nat × String)) (k : Nat) (v : String),
      List.lookup k l = some v → (k, v) ∈ l := by
  intro l
  induction l with
  | nil => intro k v h; simp [List.lookup] at h
  | cons p t ih =>
    intro k v h
    obtain ⟨pk, pv⟩ := p
    by_cases hk : k = pk
    · subst hk
      simp [List.lookup] at h
      subst h
      exact List.mem_cons_self _ _
    · have hb : (k == pk) = false := by simp [hk]
      rw [List.lookup, hb] at h
      exact List.mem_cons_of_mem _ (ih k v h)

theorem debug_map_key :
    ∀ p ∈ build_map_hash_set, p.2 = DEBUG_MAP → p.1 = 1 := by decide

/-! ## C1 -/

/-- C1: every byte string that the LevelSetup decoder or the Sprite decoder
accepts is stored verbatim in the asset, so to_bytes returns it byte for
byte. -/
theorem c1_round_trip :
    (∀ (bs : List Nat) (i : Nat) (a : LevelSetup),
        LevelSetup.from_bytes bs i = some a → a.to_bytes = bs)
    ∧ (∀ (bs : List Nat) (s : Sprite),
        Sprite.from_bytes bs = some s → s.to_bytes = bs) := by
  constructor
  · intro bs i a h
    rw [LevelSetup.from_bytes] at h
    split at h
    · exact Option.noConfusion h
    · simp only at h
      rcases hlk : List.lookup (i - 1820) build_map_hash_set with _ | name
      all_goals rw [hlk] at h
      · exact Option.noConfusion h
      · simp only at h
        split at h
        · cases h
          rfl
        · rcases hps : LevelSetup.parseStructured bs with _ | t
          all_goals rw [hps] at h
          · exact Option.noConfusion h
          · obtain ⟨cu, ca, li⟩ := t
            simp only at h
            cases h
            rfl
  · intro bs s h
    rw [Sprite.from_bytes] at h
    rcases h4 : sliceGet bs 0 4 with _ | hdr4
    all_goals rw [h4] at h
    · exact Option.noConfusion h
    · simp only at h
      split at h
      · cases h
        rfl
      · split at h
        · rcases hc : SpriteChunk.new bs 8 ImgFmt.RGBA16 with _ | cp
          all_goals rw [hc] at h
          · exact Option.noConfusion h
          · obtain ⟨chunk, o⟩ := cp
            simp only at h
            rcases h8 : sliceGet bs 8 8 with _ | hdr8
            all_goals rw [h8] at h
            · exact Option.noConfusion h
            · simp only at h
              cases h
              rfl
        · split at h
          · exact Option.noConfusion h
          · split at h
            · exact Option.noConfusion h
            · cases h
              rfl

/-- C1 witness: the minimal level file and a minimal unknown-format sprite,
run through the respective decoders. -/
theorem c1_round_trip_witness :
    LevelSetup.to_bytes
        { bytes := [1, 1] ++ List.replicate 24 0 ++ [1, 0, 3, 0, 4, 0, 0], cubes := [],
          camera_nodes := [], lighting_nodes := [] } =
        [1, 1] ++ List.replicate 24 0 ++ [1, 0, 3, 0, 4, 0, 0] ∧
      Sprite.to_bytes { format := ImgFmt.Unknown 2, frame := [], bytes := [0, 0, 0, 2] } =
        [0, 0, 0, 2] :=
  ⟨c1_round_trip.1 ([1, 1] ++ List.replicate 24 0 ++ [1, 0, 3, 0, 4, 0, 0]) 1821 _ (by decide),
   c1_round_trip.2 [0, 0, 0, 2] _ (by decide)⟩

/-! ## C10 -/

/-- C10: LevelSetup::from_bytes fails for every byte string when the caller
index is below 1820 (the usize subtraction panics) or when the derived map
id is not a key of the built-in map table (the unwrap panics); acceptance
therefore depends on the index, not only on the bytes, as the last
conjunct shows with the empty byte string. -/
theorem c10_index_gate :
    (∀ (bs : List Nat) (i : Nat), i < 1820 → LevelSetup.from_bytes bs i = none)
    ∧ (∀ (bs : List Nat) (i : Nat), 1820 ≤ i →
        List.lookup (i - 1820) build_map_hash_set = none →
        LevelSetup.from_bytes bs i = none)
    ∧ LevelSetup.from_bytes [] 1822 ≠ none
    ∧ LevelSetup.from_bytes [] 1823 = none := by
  refine ⟨?_, ?_, by decide, by decide⟩
  · intro bs i h
    unfold LevelSetup.from_bytes
    rw [if_pos h]
  · intro bs i h hl
    unfold LevelSetup.from_bytes
    rw [if_neg (not_lt.mpr h)]
    simp only [hl]

/-- C10 witness: both failing conjuncts at concrete indices 0 and 1823
(map id 3 is absent from the table), with the empty byte string. -/
theorem c10_index_gate_witness :
    LevelSetup.from_bytes [] 0 = none ∧ LevelSetup.from_bytes [] 1823 = none :=
  ⟨c10_index_gate.1 [] 0 (by decide), c10_index_gate.2.1 [] 1823 (by decide) (by decide)⟩

/-! ## C3 -/

/-- C3 counterexample: map id 2 (a known id other than 113) is returned as
the opaque asset with empty sections although the structured parser rejects
the same byte string, so the decoder did not parse the structured sections
there. -/
theorem c3_counterexample :
    LevelSetup.from_bytes [255] 1822 =
        some { bytes := [255], cubes := [], camera_nodes := [], lighting_nodes := [] } ∧
      LevelSetup.parseStructured [255] = none := by
  exact ⟨by decide, by decide⟩

/-- C3 amended: a known map id is returned as the opaque asset with empty
sections exactly when it differs from 1 (the id of SM_SPIRAL_MOUNTAIN, the
DEBUG_MAP constant; id 113 is among these since its name differs from
DEBUG_MAP); only map id 1 runs the structured section parser; get_type is
the LevelSetup discriminator in every case. -/
theorem c3_opaque_gate :
    ∀ (bs : List Nat) (i : Nat) (map_name : String), 1820 ≤ i →
      List.lookup (i - 1820) build_map_hash_set = some map_name →
      ((i - 1820 ≠ 1 → LevelSetup.from_bytes bs i =
          some { bytes := bs, cubes := [], camera_nodes := [], lighting_nodes := [] })
       ∧ (i - 1820 = 1 → LevelSetup.from_bytes bs i =
          (LevelSetup.parseStructured bs).map
            (fun t => { bytes := bs, cubes := t.1, camera_nodes := t.2.1,
                        lighting_nodes := t.2.2 }))
       ∧ (∀ a : LevelSetup, LevelSetup.from_bytes bs i = some a →
            a.get_type = AssetType.LevelSetup)) := by
  intro bs i map_name hi hl
  have hnl : ¬ i < 1820 := not_lt.mpr hi
  refine ⟨?_, ?_, ?_⟩
  · intro h1
    unfold LevelSetup.from_bytes
    rw [if_neg hnl]
    simp only [hl]
    rw [if_pos]
    right
    intro heq
    exact h1 (debug_map_key (i - 1820, map_name) (list_lookup_mem _ _ _ hl) heq)
  · intro h1
    unfold LevelSetup.from_bytes
    rw [if_neg hnl]
    simp only [hl]
    rw [h1] at hl
    have hname : map_name = DEBUG_MAP := by
      have : List.lookup 1 build_map_hash_set = some DEBUG_MAP := by decide
      rw [this] at hl
      exact (Option.some.injEq _ _ ▸ hl).symm
    rw [if_neg]
    · cases hps : LevelSetup.parseStructured bs with
      | none => simp [hps]
      | some t =>
        obtain ⟨c, cams, lights⟩ := t
        simp [hps]
    · rw [h1, hname]
      simp [DEBUG_MAP]
  · intro a _
    rfl

/-- C3 witness: map id 2 with a one-byte input takes the opaque branch. -/
theorem c3_opaque_gate_witness :
    LevelSetup.from_bytes [255] 1822 =
      some { bytes := [255], cubes := [], camera_nodes := [], lighting_nodes := [] } :=
  (c3_opaque_gate [255] 1822 "MM_MUMBOS_MOUNTAIN" (by decide) (by decide)).1 (by decide)

/-! ## C4 -/

/-- C4 counterexample: a camera section holding the node bytes 1, index
0x0005, with no 2 gate (next byte is the terminator 0) decodes with an
EMPTY camera node list: the type-0 node is dropped and ends the list, it is
not appended. -/
theorem c4_counterexample :
    LevelSetup.from_bytes [3, 1, 0, 5, 0] 1821 =
      some { bytes := [3, 1, 0, 5, 0], cubes := [], camera_nodes := [],
             lighting_nodes := [] } := by decide

/-- C4 amended: a camera node whose 2 gate is absent gets type 0, and a
type-0 node (gated or not) terminates the camera node list at once: the
node is not appended, no sections are read, and the cursor is left at the
byte that failed the gate (or after the explicit type byte). -/
theorem c4_type0_break :
    ∀ (fuel i1 i2 b : Nat) (rest : List Nat) (acc : List CameraNode), b ≠ 2 →
      camera_node_list_loop (fuel + 1) (1 :: i1 :: i2 :: b :: rest) acc =
          some (acc, b :: rest) ∧
        camera_node_list_loop (fuel + 1) (1 :: i1 :: i2 :: 2 :: 0 :: rest) acc =
          some (acc, rest) := by
  intro fuel i1 i2 b rest acc hb
  constructor
  · rw [camera_node_list_loop]
    simp [read_u8, read_i16, read_if_expected, if_neg hb]
  · rw [camera_node_list_loop]
    simp [read_u8, read_i16, read_if_expected]

/-- C4 witness: the amended behaviour at index 5 with gate byte 0. -/
theorem c4_type0_break_witness :
    camera_node_list_loop 1 [1, 0, 5, 0] [] = some ([], [0]) ∧
      camera_node_list_loop 1 [1, 0, 5, 2, 0] [] = some ([], []) :=
  c4_type0_break 0 0 5 0 [] [] (by decide)

/-! ## C5 -/

/-- C5 counterexample: a lighting entry whose 3 gate is absent (the twelve
position bytes are followed by 0, not 3) is decoded WITHOUT error: the
node is appended with zero floats for the flags and 0,0,0 for rgb. -/
theorem c5_counterexample :
    LevelSetup.from_bytes ([4, 1, 2] ++ List.replicate 12 0 ++ [0, 0]) 1821 =
      some { bytes := [4, 1, 2] ++ List.replicate 12 0 ++ [0, 0], cubes := [],
             camera_nodes := [],
             lighting_nodes :=
               [{ position := some (zeroF32, zeroF32, zeroF32), unknown_1 := some zeroF32,
                  unknown_2 := some zeroF32, rgb := some (0, 0, 0) }] } := by decide

/-- C5 amended: none of the three lighting gates is mandatory. A missing 2
gate silently skips the entry (nothing is appended, no error); a missing 3
gate appends the node with zero defaults for both flags and for rgb; a
missing 4 gate appends the node with the parsed flags and a zero default
for rgb. The parser only fails on a malformed entry tag or truncation. -/
theorem c5_light_gates :
    ∀ (fuel : Nat) (acc : List LightingNode),
      (∀ (b : Nat) (rest : List Nat), b ≠ 2 →
          lighting_vector_list_loop (fuel + 1) (1 :: b :: rest) acc =
            lighting_vector_list_loop fuel (b :: rest) acc)
      ∧ (∀ (p0 p1 p2 p3 p4 p5 p6 p7 p8 p9 p10 p11 b : Nat) (rest : List Nat), b ≠ 3 →
          lighting_vector_list_loop (fuel + 1)
              (1 :: 2 :: p0 :: p1 :: p2 :: p3 :: p4 :: p5 :: p6 :: p7 :: p8 :: p9 :: p10 ::
                p11 :: b :: rest) acc =
            lighting_vector_list_loop fuel (b :: rest)
              (acc ++ [{ position := some (⟨p0, p1, p2, p3⟩, ⟨p4, p5, p6, p7⟩,
                           ⟨p8, p9, p10, p11⟩),
                         unknown_1 := some zeroF32, unknown_2 := some zeroF32,
                         rgb := some (0, 0, 0) }]))
      ∧ (∀ (p0 p1 p2 p3 p4 p5 p6 p7 p8 p9 p10 p11 f0 f1 f2 f3 f4 f5 f6 f7 b : Nat)
            (rest : List Nat), b ≠ 4 →
          lighting_vector_list_loop (fuel + 1)
              (1 :: 2 :: p0 :: p1 :: p2 :: p3 :: p4 :: p5 :: p6 :: p7 :: p8 :: p9 :: p10 ::
                p11 :: 3 :: f0 :: f1 :: f2 :: f3 :: f4 :: f5 :: f6 :: f7 :: b :: rest) acc =
            lighting_vector_list_loop fuel (b :: rest)
              (acc ++ [{ position := some (⟨p0, p1, p2, p3⟩, ⟨p4, p5, p6, p7⟩,
                           ⟨p8, p9, p10, p11⟩),
                         unknown_1 := some ⟨f0, f1, f2, f3⟩, unknown_2 := some ⟨f4, f5, f6, f7⟩,
                         rgb := some (0, 0, 0) }])) := by
  intro fuel acc
  refine ⟨?_, ?_, ?_⟩
  · intro b rest hb
    rw [lighting_vector_list_loop]
    simp [read_u8, read_if_expected, if_neg hb]
  · intro p0 p1 p2 p3 p4 p5 p6 p7 p8 p9 p10 p11 b rest hb
    rw [lighting_vector_list_loop]
    simp [read_u8, read_if_expected, lighting_entry, read_3f32, read_f32, if_neg hb]
  · intro p0 p1 p2 p3 p4 p5 p6 p7 p8 p9 p10 p11 f0 f1 f2 f3 f4 f5 f6 f7 b rest hb
    rw [lighting_vector_list_loop]
    simp [read_u8, read_if_expected, lighting_entry, read_3f32, read_f32, if_neg hb]

/-- C5 witness: the three amended behaviours at concrete inputs. -/
theorem c5_light_gates_witness :
    lighting_vector_list_loop 1 [1, 0] [] = lighting_vector_list_loop 0 [0] [] ∧
      lighting_vector_list_loop 1 (1 :: 2 :: [9, 9, 9, 9, 9, 9, 9, 9, 9, 9, 9, 9] ++ [0]) [] =
        lighting_vector_list_loop 0 [0]
          [{ position := some (⟨9, 9, 9, 9⟩, ⟨9, 9, 9, 9⟩, ⟨9, 9, 9, 9⟩),
             unknown_1 := some zeroF32, unknown_2 := some zeroF32, rgb := some (0, 0, 0) }] ∧
      lighting_vector_list_loop 1
          (1 :: 2 :: [9, 9, 9, 9, 9, 9, 9, 9, 9, 9, 9, 9] ++ 3 :: [8, 8, 8, 8, 7, 7, 7, 7] ++
            [0]) [] =
        lighting_vector_list_loop 0 [0]
          [{ position := some (⟨9, 9, 9, 9⟩, ⟨9, 9, 9, 9⟩, ⟨9, 9, 9, 9⟩),
             unknown_1 := some ⟨8, 8, 8, 8⟩, unknown_2 := some ⟨7, 7, 7, 7⟩,
             rgb := some (0, 0, 0) }] :=
  ⟨(c5_light_gates 0 []).1 0 [0] (by decide),
   (c5_light_gates 0 []).2.1 9 9 9 9 9 9 9 9 9 9 9 9 0 [0] (by decide),
   (c5_light_gates 0 []).2.2 9 9 9 9 9 9 9 9 9 9 9 9 8 8 8 8 7 7 7 7 0 [0] (by decide)⟩

/-! ## C7 -/

/-- C7 counterexample: an objects group with kind 0xA, count 0 and its 0xB
gate present, followed by the voxel terminator, yields an EMPTY record
list: no none slot (the decoded voxel has no such notion) and nothing else
is appended. -/
theorem c7_counterexample :
    get_cubes_from_reader 6 [3, 0xA, 0, 0xB, 1] [] = some ([], []) := by decide

/-- C7 amended: a 3-tagged objects group with count 0 appends nothing at
all to the voxel, whether its kind gate byte is present (kind 0xA gated by
0xB, kind 0x6 gated by 0x7) or absent; parsing then continues behind the
group. The decoded voxel keeps no trace of the empty group. -/
theorem c7_empty_group :
    ∀ (fuel : Nat) (rest : List Nat) (acc : List LevelCube),
      (get_cubes_from_reader (fuel + 1) (3 :: 0xA :: 0 :: 0xB :: rest) acc =
          get_cubes_from_reader fuel rest acc)
      ∧ (get_cubes_from_reader (fuel + 1) (3 :: 0x6 :: 0 :: 0x7 :: rest) acc =
          get_cubes_from_reader fuel rest acc)
      ∧ (∀ b : Nat, b ≠ 0xB →
          get_cubes_from_reader (fuel + 1) (3 :: 0xA :: 0 :: b :: rest) acc =
            get_cubes_from_reader fuel (b :: rest) acc) := by
  intro fuel rest acc
  refine ⟨?_, ?_, ?_⟩
  · rw [get_cubes_from_reader]
    simp [read_u8, read_if_expected, read_u8_n, chunksR, chunksRGo, List.mapM, List.mapM.loop]
  · rw [get_cubes_from_reader]
    simp [read_u8, read_if_expected, read_u8_n, chunksR, chunksRGo, List.mapM, List.mapM.loop]
  · intro b hb
    rw [get_cubes_from_reader]
    simp [read_u8, read_if_expected, if_neg hb]

/-- C7 witness: the three amended behaviours at concrete inputs. -/
theorem c7_empty_group_witness :
    get_cubes_from_reader 2 [3, 0xA, 0, 0xB, 1] [] = get_cubes_from_reader 1 [1] [] ∧
      get_cubes_from_reader 2 [3, 0x6, 0, 0x7, 1] [] = get_cubes_from_reader 1 [1] [] ∧
      get_cubes_from_reader 2 [3, 0xA, 0, 1] [] = get_cubes_from_reader 1 [1] [] :=
  ⟨(c7_empty_group 1 [1] []).1, (c7_empty_group 1 [1] []).2.1,
   (c7_empty_group 1 [] []).2.2 1 (by decide)⟩

/-! ## C8 -/

/-- C8: the IA4 converter evaluated at the failing source byte 0x10
(intensity 0, alpha 1, second texel all zero). The first texel comes out
with color channels 2, not the replication of its 3-bit intensity field,
which is 0 as the second conjunct states: the alpha bit of the byte leaks
into the first texel color through the unmasked shift a >>> 3. -/
theorem c8_ia4_failing_input :
    ia4_to_rgba32 [0x10] = [2, 2, 2, 0xFF, 0, 0, 0, 0] ∧
      ((0x10 >>> 5) <<< 5) ||| ((0x10 >>> 5) <<< 2) ||| ((0x10 >>> 5) >>> 1) = (0 : Nat) := by
  decide

/-! ## C9 -/

/-- chunksExactGo on the empty list is empty for every fuel. -/
theorem chunksExactGo_nil {α : Type} (n : Nat) :
    ∀ f : Nat, chunksExactGo n f ([] : List α) = [] := by
  intro f
  cases f with
  | zero => rfl
  | succ f =>
    rw [chunksExactGo, if_neg ?_]
    rintro ⟨h1, h2⟩
    simp at h2
    omega

/-- Fuel congruence for chunksExactGo: any fuel at least the list length
computes the same chunks. -/
theorem chunksExactGo_congr {α : Type} (n : Nat) :
    ∀ (f1 f2 : Nat) (l : List α), l.length ≤ f1 → l.length ≤ f2 →
      chunksExactGo n f1 l = chunksExactGo n f2 l := by
  intro f1
  induction f1 with
  | zero =>
    intro f2 l h1 _
    have : l = [] := List.eq_nil_of_length_eq_zero (Nat.le_zero.mp h1)
    subst this
    rw [chunksExactGo_nil, chunksExactGo_nil]
  | succ f1 ih =>
    intro f2 l h1 h2
    cases f2 with
    | zero =>
      have : l = [] := List.eq_nil_of_length_eq_zero (Nat.le_zero.mp h2)
      subst this
      rw [chunksExactGo_nil, chunksExactGo_nil]
    | succ f2 =>
      rw [chunksExactGo, chunksExactGo]
      by_cases hc : 0 < n ∧ n ≤ l.length
      · rw [if_pos hc, if_pos hc]
        have hdrop : (l.drop n).length ≤ f1 := by
          rw [List.length_drop]
          omega
        have hdrop2 : (l.drop n).length ≤ f2 := by
          rw [List.length_drop]
          omega
        rw [ih f2 (l.drop n) hdrop hdrop2]
      · rw [if_neg hc, if_neg hc]

/-- Unfolding chunksExact by one full chunk. -/
theorem chunksExact_cons {α : Type} (n : Nat) (l : List α) (h0 : 0 < n)
    (hn : n ≤ l.length) :
    chunksExact n l = l.take n :: chunksExact n (l.drop n) := by
  unfold chunksExact
  have hlen : 0 < l.length := lt_of_lt_of_le h0 hn
  obtain ⟨f, hf⟩ : ∃ f, l.length = f + 1 := ⟨l.length - 1, by omega⟩
  rw [hf, chunksExactGo, if_pos ⟨h0, hn⟩]
  have : (l.drop n).length ≤ f := by
    rw [List.length_drop]
    omega
  rw [chunksExactGo_congr n f (l.drop n).length (l.drop n) this le_rfl]

/-- The code-side halfword conversion agrees with the spec-side formula on
every pair of bytes. -/
theorem rgba5551_eq_spec :
    ∀ hi lo : Nat, rgba5551_to_rgba32 hi lo = spec_rgba5551_expand (toU16 hi lo) := by
  intro hi lo
  unfold rgba5551_to_rgba32 spec_rgba5551_expand sar7
  have h2 : toU16 hi lo &&& 1 = toU16 hi lo % 2 := Nat.and_one_is_mod _
  rcases Nat.mod_two_eq_zero_or_one (toU16 hi lo) with h | h
  · simp [h2, h]
  · simp [h2, h]

/-- C9 counterexample: the halfword 0xF801 (red 31, alpha 1) decodes to
FB 00 00 FF, not FF 00 00 FF as the claim asserts: the formula
(c5 <<< 3) ||| (c5 >>> 3) replicates only two of the five bits. -/
theorem c9_counterexample :
    rgba16_to_rgba32 [0xF8, 0x01] = [0xFB, 0x00, 0x00, 0xFF] ∧
      rgba16_to_rgba32 [0xF8, 0x01] ≠ [0xFF, 0x00, 0x00, 0xFF] := by decide

/-- C9 amended: the RGBA16 converter maps every big-endian halfword, laid
out as 5 bits red, 5 green, 5 blue, 1 alpha, through
c8 = (c5 <<< 3) ||| (c5 >>> 3) per color channel and sign extension of the
alpha bit; the halfword 0xF801 therefore decodes to FB 00 00 FF (not FF 00
00 FF), 0x0001 to 00 00 00 FF, and 0x0000 to 00 00 00 00. -/
theorem c9_rgba16_expansion :
    (∀ (hi lo : Nat) (rest : List Nat),
        rgba16_to_rgba32 (hi :: lo :: rest) =
          spec_rgba5551_expand (toU16 hi lo) ++ rgba16_to_rgba32 rest)
    ∧ rgba16_to_rgba32 [0xF8, 0x01] = [0xFB, 0x00, 0x00, 0xFF]
    ∧ rgba16_to_rgba32 [0x00, 0x01] = [0x00, 0x00, 0x00, 0xFF]
    ∧ rgba16_to_rgba32 [0x00, 0x00] = [0x00, 0x00, 0x00, 0x00] := by
  refine ⟨?_, by decide, by decide, by decide⟩
  intro hi lo rest
  unfold rgba16_to_rgba32
  rw [chunksExact_cons 2 (hi :: lo :: rest) (by omega) (by simp)]
  simp only [List.flatMap_cons, List.take, List.drop, List.getD]
  rw [rgba5551_eq_spec]
  rfl

/-! ## C2 -/

/-- The lattice loop invariant: every iteration pushes at most one record,
each pushed record is non-empty and carries the section start and end
vectors. -/
theorem voxel_volume_loop_spec :
    ∀ (n : Nat) (f t : Int × Int × Int) (r : List Nat) (acc out : List LevelCubes)
      (r2 : List Nat),
      voxel_volume_loop n f t r acc = some (out, r2) →
      out.length ≤ acc.length + n ∧
        ∀ c ∈ out, c ∈ acc ∨ (c.cubes ≠ [] ∧ c.start_position = f ∧ c.end_position = t) := by
  intro n
  induction n with
  | zero =>
    intro f t r acc out r2 h
    rw [voxel_volume_loop] at h
    cases h
    exact ⟨by omega, fun c hc => Or.inl hc⟩
  | succ n ih =>
    intro f t r acc out r2 h
    rw [voxel_volume_loop] at h
    rcases hg : get_cubes_from_reader (r.length + 1) r [] with _ | p
    all_goals rw [hg] at h
    · exact Option.noConfusion h
    · obtain ⟨cubes, r1⟩ := p
      have h2 : voxel_volume_loop n f t r1
          (if cubes.isEmpty = true then acc
           else acc ++ [{ start_position := f, end_position := t, cubes := cubes }]) =
          some (out, r2) := h
      by_cases he : cubes.isEmpty
      · rw [if_pos he] at h2
        have hspec := ih f t r1 acc out r2 h2
        exact ⟨by omega, hspec.2⟩
      · rw [if_neg he] at h2
        have hspec := ih f t r1
          (acc ++ [{ start_position := f, end_position := t, cubes := cubes }]) out r2 h2
        constructor
        · have h1 := hspec.1
          simp only [List.length_append, List.length_cons, List.length_nil] at h1
          omega
        · intro c hc
          rcases hspec.2 c hc with hin | hp
          · rcases List.mem_append.mp hin with h2 | h2
            · exact Or.inl h2
            · right
              have hce : c = { start_position := f, end_position := t, cubes := cubes } := by
                simpa using h2
              subst hce
              refine ⟨?_, rfl, rfl⟩
              intro hnil
              have hce2 : cubes = [] := hnil
              rw [hce2] at he
              exact he rfl
          · exact Or.inr hp

/-- C2 amended: a voxel section runs the voxel reader once per lattice
point, but keeps a record only for lattice points whose voxel is
non-empty; the decoded list length is hence at most (never necessarily
equal to) the lattice volume computed from the decoded start and end
vectors, and every record in it is non-empty and carries those vectors. -/
theorem c2_voxel_count :
    ∀ (r : List Nat) (f t : Int × Int × Int) (cubes : List LevelCubes) (rest : List Nat),
      cube_list_from_file r = some ((f, t, cubes), rest) →
      cubes.length ≤
          countRange f.1 t.1 * (countRange f.2.1 t.2.1 * countRange f.2.2 t.2.2) ∧
        ∀ c ∈ cubes, c.cubes ≠ [] ∧ c.start_position = f ∧ c.end_position = t := by
  intro r f t cubes rest h
  rw [cube_list_from_file] at h
  rcases h1 : read_u8 r with _ | p
  all_goals rw [h1] at h
  · exact Option.noConfusion h
  · obtain ⟨should_read, r1⟩ := p
    simp only at h
    rcases h2 : (if should_read = 1 then read_3i32 r1 else some (((0 : Int), (0 : Int),
        (0 : Int)), r1)) with _ | q
    all_goals rw [h2] at h
    · exact Option.noConfusion h
    · obtain ⟨cubes_from, r2⟩ := q
      simp only at h
      rcases h3 : read_3i32 r2 with _ | w
      all_goals rw [h3] at h
      · exact Option.noConfusion h
      · obtain ⟨cubes_to, r3⟩ := w
        simp only at h
        rcases h4 : voxel_volume_loop
            (countRange cubes_from.1 cubes_to.1 *
              (countRange cubes_from.2.1 cubes_to.2.1 *
                countRange cubes_from.2.2 cubes_to.2.2))
            cubes_from cubes_to r3 [] with _ | v
        all_goals rw [h4] at h
        · exact Option.noConfusion h
        · obtain ⟨out, r4⟩ := v
          simp only at h
          rcases h5 : read_if_expected 0 (fun r5 => some (0, r5)) r4 with _ | g
          all_goals rw [h5] at h
          · exact Option.noConfusion h
          · obtain ⟨gate, r5⟩ := g
            simp only [Option.some.injEq, Prod.mk.injEq] at h
            obtain ⟨⟨hf, ht, hc⟩, _⟩ := h
            subst hf
            subst ht
            subst hc
            have hspec := voxel_volume_loop_spec _ _ _ r3 [] _ r4 h4
            refine ⟨by simpa using hspec.1, ?_⟩
            intro c hcm
            rcases hspec.2 c hcm with hin | hp
            · exact absurd hin (List.not_mem_nil c)
            · exact hp

/-- C2 counterexample: a one-point lattice (volume 1) whose single voxel is
empty decodes to an EMPTY record list, length 0, not the lattice volume. -/
theorem c2_counterexample :
    cube_list_from_file ([1] ++ List.replicate 24 0 ++ [1, 0]) =
        some ((((0 : Int), 0, 0), ((0 : Int), 0, 0), ([] : List LevelCubes)), []) ∧
      countRange 0 0 * (countRange 0 0 * countRange 0 0) = 1 := by
  exact ⟨by decide, by decide⟩

/-- C2 witness: the amended bound at the one-point lattice section. -/
theorem c2_voxel_count_witness :
    ([] : List LevelCubes).length ≤
        countRange 0 0 * (countRange 0 0 * countRange 0 0) ∧
      ∀ c ∈ ([] : List LevelCubes),
        c.cubes ≠ [] ∧ c.start_position = ((0 : Int), 0, 0) ∧
          c.end_position = ((0 : Int), 0, 0) :=
  c2_voxel_count ([1] ++ List.replicate 24 0 ++ [1, 0]) ((0 : Int), 0, 0) ((0 : Int), 0, 0)
    [] [] (by decide)

/-! ## C6 -/

/-- chunksRGo on the empty list is empty for every fuel. -/
theorem chunksRGo_nil {α : Type} (n : Nat) :
    ∀ f : Nat, chunksRGo n f ([] : List α) = [] := by
  intro f
  cases f with
  | zero => rfl
  | succ f => rfl

/-- Fuel congruence for chunksRGo: any fuel at least the list length
computes the same chunks, for a nonzero chunk size. -/
theorem chunksRGo_congr {α : Type} (n : Nat) (hn : n ≠ 0) :
    ∀ (f1 f2 : Nat) (l : List α), l.length ≤ f1 → l.length ≤ f2 →
      chunksRGo n f1 l = chunksRGo n f2 l := by
  intro f1
  induction f1 with
  | zero =>
    intro f2 l h1 _
    have : l = [] := List.eq_nil_of_length_eq_zero (Nat.le_zero.mp h1)
    subst this
    rw [chunksRGo_nil, chunksRGo_nil]
  | succ f1 ih =>
    intro f2 l h1 h2
    cases l with
    | nil => rw [chunksRGo_nil, chunksRGo_nil]
    | cons x xs =>
      cases f2 with
      | zero =>
        simp at h2
      | succ f2 =>
        rw [chunksRGo, chunksRGo]
        simp only [List.length_cons] at h1 h2
        have hd1 : ((x :: xs).drop n).length ≤ f1 := by
          simp only [List.length_drop, List.length_cons]
          omega
        have hd2 : ((x :: xs).drop n).length ≤ f2 := by
          simp only [List.length_drop, List.length_cons]
          omega
        rw [ih f2 ((x :: xs).drop n) hd1 hd2]

/-- Unfolding chunksR by one chunk on a non-empty list. -/
theorem chunksR_cons {α : Type} (n : Nat) (l : List α) (h0 : n ≠ 0) (hl : l ≠ []) :
    chunksR n l = l.take n :: chunksR n (l.drop n) := by
  unfold chunksR
  rw [if_neg h0, if_neg h0]
  obtain ⟨x, xs, hx⟩ : ∃ y ys, l = y :: ys := by
    cases l with
    | nil => exact absurd rfl hl
    | cons y ys => exact ⟨y, ys, rfl⟩
  subst hx
  rw [List.length_cons, chunksRGo]
  have hd : ((x :: xs).drop n).length ≤ xs.length := by
    simp only [List.length_drop, List.length_cons]
    omega
  rw [chunksRGo_congr n h0 xs.length ((x :: xs).drop n).length ((x :: xs).drop n) hd le_rfl]

/-- LevelVoxelType::new turns every 12-byte record into a sprite node. -/
theorem new_of_length12 :
    ∀ c : List Nat, c.length = 12 → ∃ v, LevelVoxelType.new c = some v := by
  intro c h
  rw [LevelVoxelType.new, h, if_neg (show ¬(12 = 20) by decide), if_pos rfl]
  exact ⟨_, rfl⟩

/-- Every payload of length 12 times n maps through chunking and
LevelVoxelType::new to exactly n records. -/
theorem mapM_new_props :
    ∀ (n : Nat) (payload : List Nat), payload.length = 12 * n →
      ∃ vs : List LevelVoxelType,
        (chunksR 12 payload).mapM LevelVoxelType.new = some vs ∧ vs.length = n := by
  intro n
  induction n with
  | zero =>
    intro payload h
    have : payload = [] := List.eq_nil_of_length_eq_zero (by omega)
    subst this
    exact ⟨[], rfl, rfl⟩
  | succ n ih =>
    intro payload h
    have hne : payload ≠ [] := by
      intro hnil
      rw [hnil] at h
      simp at h
    rw [chunksR_cons 12 payload (by omega) hne]
    have htk : (payload.take 12).length = 12 := by
      rw [List.length_take]
      omega
    obtain ⟨v, hv⟩ := new_of_length12 _ htk
    have hdp : (payload.drop 12).length = 12 * n := by
      rw [List.length_drop]
      omega
    obtain ⟨vs, hvs, hlen⟩ := ih (payload.drop 12) hdp
    refine ⟨v :: vs, ?_, by simp [hlen]⟩
    rw [List.mapM_cons, hv, hvs]
    rfl

/-- C6 amended: a tag-8 props group with count byte N followed by the 9
gate consumes exactly N times 12 payload bytes (not 16), appending exactly
N records, each built from one 12-byte chunk; parsing continues right
behind the payload. -/
theorem c6_props_group :
    ∀ (fuel n : Nat) (payload rest : List Nat) (acc : List LevelCube),
      payload.length = 12 * n →
      get_cubes_from_reader (fuel + 1) (8 :: n :: 9 :: (payload ++ rest)) acc =
          get_cubes_from_reader fuel rest (acc ++ props_records payload) ∧
        (props_records payload).length = n := by
  intro fuel n payload rest acc hlen
  obtain ⟨vs, hvs, hvslen⟩ := mapM_new_props n payload hlen
  have hpr : props_records payload = vs.map LevelCube.mk := by
    rw [props_records, hvs]
  constructor
  · rw [get_cubes_from_reader]
    have htk : read_u8_n (n * 12) (payload ++ rest) = some (payload, rest) := by
      rw [read_u8_n, if_pos]
      · have h12 : n * 12 = payload.length := by omega
        rw [h12, List.take_left, List.drop_left]
      · rw [List.length_append]
        omega
    simp [read_u8, read_if_expected, htk, hpr]
    have hvs2 : List.mapM.loop LevelVoxelType.new (chunksR 12 payload) [] = some vs := hvs
    rw [hvs2]
  · rw [hpr]
    simp [hvslen]

/-- C6 witness: one record, twelve zero payload bytes. -/
theorem c6_props_group_witness :
    get_cubes_from_reader 2 (8 :: 1 :: 9 :: (List.replicate 12 0 ++ [1])) [] =
        get_cubes_from_reader 1 [1] ([] ++ props_records (List.replicate 12 0)) ∧
      (props_records (List.replicate 12 0)).length = 1 :=
  c6_props_group 1 1 (List.replicate 12 0) [1] [] (by decide)

/-- C6 counterexample: a count-1 props group whose payload is followed by
the voxel terminator and one trailing byte 99 parses with exactly 12
payload bytes consumed (the trailing 99 is left over), and its single
record is the 12-byte sprite-style node, not a 16-byte record. -/
theorem c6_counterexample :
    get_cubes_from_reader 6 (8 :: 1 :: 9 :: (List.replicate 12 0 ++ [1, 99])) [] =
      some ([{ bytes := LevelVoxelType.Sprite
                 { object_id := 0, size := 0, x := 0, y := 0, z := 0,
                   unknown_1 := 0, unknown_2 := 0 } }], [99]) := by decide
